import Mathlib

/-!
Verification of the initialization module (`src/init.cpp`) of the Alexandria
chess engine.  Bitboards are modelled as natural numbers whose bits 0..63
encode the squares (little-endian rank-file mapping, square = 8*rank + file);
64-bit wraparound is made explicit with `% B64`.  Helper routines declared in
headers that are not part of the provided source (`attack.h`, `magic.h`,
`random.h`, `search.h`, `ttable.h`) are modelled from the specification and
carry a doc comment saying so.
-/

/-- Modulus for 64-bit unsigned arithmetic, i.e. 2 ^ 64. -/
def B64 : Nat := 18446744073709551616

/-- Number of board squares along one side minus one is 7; a ray can take at
most 7 steps, so all ray walks use fuel 7. -/
def RAYFUEL : Nat := 7

/-- Modelled from the spec: walk of one ray direction for the relevant-occupancy
mask of a slider ("board squares that can block a slider from that square,
excluding edge squares").  A coordinate that moves is kept in 1..6; a
coordinate that stays fixed is unconstrained, matching the mask loops of the
reference slider-mask routines declared in `attack.h`. -/
def walkMask : Nat → Int → Int → Int → Int → Nat
  | 0, _, _, _, _ => 0
  | fuel+1, r, f, dr, df =>
    let r' := r + dr
    let f' := f + df
    if (dr = 0 ∨ (1 ≤ r' ∧ r' ≤ 6)) ∧ (df = 0 ∨ (1 ≤ f' ∧ f' ≤ 6)) then
      (2 ^ (r' * 8 + f').toNat) ||| walkMask fuel r' f' dr df
    else 0

/-- Modelled from the spec: walk of one ray direction of a brute-force
attack computation, adding every square until the edge of the board or the
first blocker, the blocker square included. -/
def walkAtk : Nat → Nat → Int → Int → Int → Int → Nat
  | 0, _, _, _, _, _ => 0
  | fuel+1, block, r, f, dr, df =>
    let r' := r + dr
    let f' := f + df
    if 0 ≤ r' ∧ r' ≤ 7 ∧ 0 ≤ f' ∧ f' ≤ 7 then
      let b := 2 ^ (r' * 8 + f').toNat
      if block &&& b ≠ 0 then b else b ||| walkAtk fuel block r' f' dr df
    else 0

/-- Modelled from the spec: relevant-occupancy mask of a rook (declared in
`attack.h`, used by `InitAttackTables`). -/
def MaskRookAttacks (sq : Nat) : Nat :=
  walkMask RAYFUEL (sq / 8) (sq % 8) 1 0 ||| walkMask RAYFUEL (sq / 8) (sq % 8) (-1) 0 |||
  walkMask RAYFUEL (sq / 8) (sq % 8) 0 1 ||| walkMask RAYFUEL (sq / 8) (sq % 8) 0 (-1)

/-- Modelled from the spec: relevant-occupancy mask of a bishop (declared in
`attack.h`, used by `InitAttackTables`). -/
def MaskBishopAttacks (sq : Nat) : Nat :=
  walkMask RAYFUEL (sq / 8) (sq % 8) 1 1 ||| walkMask RAYFUEL (sq / 8) (sq % 8) 1 (-1) |||
  walkMask RAYFUEL (sq / 8) (sq % 8) (-1) 1 ||| walkMask RAYFUEL (sq / 8) (sq % 8) (-1) (-1)

/-- Modelled from the spec: brute-force ray-cast rook attack set for a square
and a blocker bitboard (declared in `attack.h`, used by `InitAttackTables`). -/
def RookAttacksOnTheFly (sq block : Nat) : Nat :=
  walkAtk RAYFUEL block (sq / 8) (sq % 8) 1 0 ||| walkAtk RAYFUEL block (sq / 8) (sq % 8) (-1) 0 |||
  walkAtk RAYFUEL block (sq / 8) (sq % 8) 0 1 ||| walkAtk RAYFUEL block (sq / 8) (sq % 8) 0 (-1)

/-- Modelled from the spec: brute-force ray-cast bishop attack set for a square
and a blocker bitboard (declared in `attack.h`, used by `InitAttackTables`). -/
def BishopAttacksOnTheFly (sq block : Nat) : Nat :=
  walkAtk RAYFUEL block (sq / 8) (sq % 8) 1 1 ||| walkAtk RAYFUEL block (sq / 8) (sq % 8) 1 (-1) |||
  walkAtk RAYFUEL block (sq / 8) (sq % 8) (-1) 1 ||| walkAtk RAYFUEL block (sq / 8) (sq % 8) (-1) (-1)

/-- Lowest set bit of a natural number (`m & (m ^ (m - 1))`), the bit popped
first by the least-significant-bit loops of the reference code. -/
def lowBit (m : Nat) : Nat := m &&& (m ^^^ (m - 1))

/-- Clear the lowest set bit (`m & (m - 1)`), as in the bit-popping loops of
the reference code. -/
def clearLow (m : Nat) : Nat := m &&& (m - 1)

/-- Modelled from the spec: `SetOccupancy(index, bits_in_mask, attack_mask)`
(declared in `attack.h`): bit `k` of `index` decides whether the `k`-th lowest
set bit of the mask is occupied.  The reference routine loops
`bits_in_mask = CountBits(mask)` times popping the least significant bit; the
recursion below stops when the mask is exhausted, which is the same point. -/
def SetOccupancy (index mask : Nat) : Nat :=
  if h : mask = 0 then 0
  else (if index % 2 = 1 then lowBit mask else 0) + SetOccupancy (index / 2) (clearLow mask)
termination_by mask
decreasing_by
exact Nat.lt_of_le_of_lt Nat.and_le_right (Nat.sub_lt (Nat.pos_of_ne_zero h) Nat.one_pos)

/-- Modelled from the spec: `CountBits` (declared in `attack.h`), counting set
bits by repeatedly clearing the lowest one. -/
def CountBits (mask : Nat) : Nat :=
  if h : mask = 0 then 0 else 1 + CountBits (clearLow mask)
termination_by mask
decreasing_by
exact Nat.lt_of_le_of_lt Nat.and_le_right (Nat.sub_lt (Nat.pos_of_ne_zero h) Nat.one_pos)

/-- Verification helper (not from the source): the occupancy-index that
`SetOccupancy` maps to a given subset of the mask, i.e. a left inverse of
`SetOccupancy` on subsets of the mask. -/
def extIndex (occ mask : Nat) : Nat :=
  if h : mask = 0 then 0
  else (if occ &&& lowBit mask = 0 then 0 else 1) + 2 * extIndex occ (clearLow mask)
termination_by mask
decreasing_by
exact Nat.lt_of_le_of_lt Nat.and_le_right (Nat.sub_lt (Nat.pos_of_ne_zero h) Nat.one_pos)

/-- Verification helper (not from the source): certified exhaustive check that
the magic indices of all occupancy subsets of `mask` are pairwise distinct.
The recursion branches on each set bit of the mask (absent in the left child,
present in the right child), computes the one-hot bitset `1 <<< index` of the
magic index at each leaf, and merges children only when their bitsets are
disjoint.  Success hence certifies that all `2 ^ CountBits mask` subsets hash
to distinct indices. -/
def scanMagic (magic shift : Nat) : Nat → Nat → Nat → Option Nat
  | 0, _, _ => none
  | fu+1, mask, occ =>
    if mask = 0 then some (1 <<< ((occ * magic % B64) >>> shift))
    else
      match scanMagic magic shift fu (clearLow mask) occ,
            scanMagic magic shift fu (clearLow mask) (occ + lowBit mask) with
      | some a, some b => if a &&& b = 0 then some (a ||| b) else none
      | _, _ => none

/-- Modelled from the spec: the fixed index width of the bishop magic tables.
The source array dimension `bishop_attacks[64][512]` fixes it to 9. -/
def bishop_relevant_bits : Nat := 9

/-- Modelled from the spec: the fixed index width of the rook magic tables.
The source array dimension `rook_attacks[64][4096]` fixes it to 12. -/
def rook_relevant_bits : Nat := 12

/-- Modelled from the spec: the rook magic constants of `magic.h` are static
data "chosen/verified offline and supplied as static data"; the header is not
part of the provided source, so this development supplies concrete constants
generated offline that satisfy the stated no-collision invariant. -/
def rook_magic_numbers : List Nat :=
  [612489824210784898, 6779043613978525952, 2612092465398679568, 148618929473325056,
   2396935483162880, 1157429777167155459, 1155182101588410369, 792633690135068928,
   158331821949457, 4612884486385140864, 11543974907410120832, 2252353870760256,
   71502615691776, 74450268787572738, 281545877243136, 562950676433034,
   36738018526430272, 292751842845524160, 9223935158623668224, 1514128949985291284,
   4612266594943938568, 4612339129139639400, 1173750962137858688, 580969312618087426,
   240027788539627522, 1444531788226560264, 38280614591602720, 146930487733059608,
   18024382161487400, 9229001538544894480, 11566378686206722304, 617134161467052064,
   9223442423324082196, 4647755222507077760, 1152992011368923264, 185774035463307274,
   1441719263120588816, 4611690485201764866, 4647715107514751106, 137497807936,
   2341872081118987264, 6919820479666651144, 13835129558468149264, 2533349634498658306,
   36345474621540352, 289075076026864128, 140738562753032, 884976018478073920,
   4630281096523726912, 4634485526203727880, 9232380066112995426, 2306423568672489496,
   5044032717474238466, 4755839427559886850, 2810254967867540032, 4611703750200395840,
   577166643198705826, 4612532712174012801, 13792292118724617, 4630406303674606186,
   2954364741096572426, 601295554645, 5773685391949369492, 2819151037005954]

/-- Modelled from the spec: the bishop magic constants of `magic.h`, supplied
as offline-generated static data exactly like `rook_magic_numbers`. -/
def bishop_magic_numbers : List Nat :=
  [369295719770629744, 10413167626703908896, 144230095731621888, 2310922753546649856,
   2275166585880720, 180429995624103936, 11556397456285499464, 1152992080315031810,
   144124259663380489, 1441160883094823432, 9234640012740659488, 74826928621640,
   650947424552970, 180145171047002113, 140875195884064, 70929776651265,
   13651674044309760, 9223407222309159040, 9254897339813988962, 19142501936399616,
   9223726096784097793, 14411624379056144768, 567417591832576, 1801475207722969473,
   4614008187018823840, 875954526141284384, 324874917164187780, 37163505914347584,
   2679645076822427652, 306537554008645632, 9224498770004156440, 9224498014090691712,
   1176706287245740545, 81350671151939745, 1135800007918690, 144821080983863424,
   2742694380681830408, 1157710978602043394, 1162214989403005440, 580825609406977,
   2019873237692860416, 306385550149963808, 4512413713959044, 1125909067210770,
   9016034005353216, 9007787967258688, 2332865173921988649, 3458802034944647466,
   36103572475215877, 4611758621629443088, 12384933469651968, 9367496041024242052,
   2217008697352, 1731072760350392320, 2306230037851931650, 11865930711697728,
   4512430147280904, 2470226053506435360, 72621093883745480, 269092864,
   2359889091119679504, 275018482178, 1170937144370528264, 1228506473766724096]

/-- The magic index computed for a rook occupancy in `InitAttackTables`:
`(occupancy * rook_magic_numbers[square]) >> (64 - rook_relevant_bits)` in
64-bit arithmetic. -/
def rookMagicIndex (sq occ : Nat) : Nat :=
  (occ * rook_magic_numbers.getD sq 0 % B64) >>> (64 - rook_relevant_bits)

/-- The magic index computed for a bishop occupancy in `InitAttackTables`:
`(occupancy * bishop_magic_numbers[square]) >> (64 - bishop_relevant_bits)` in
64-bit arithmetic. -/
def bishopMagicIndex (sq occ : Nat) : Nat :=
  (occ * bishop_magic_numbers.getD sq 0 % B64) >>> (64 - bishop_relevant_bits)

/-- Certificate for one square: the rook magic index is collision-free on the
occupancy subsets of that square's relevant mask. -/
def rookSqOk (sq : Nat) : Bool :=
  (scanMagic (rook_magic_numbers.getD sq 0) (64 - rook_relevant_bits) 64
    (MaskRookAttacks sq) 0).isSome

/-- Exhaustive certificate that for every square the rook magic index is
collision-free on the occupancy subsets of that square's relevant mask. -/
def rookMagicOk : Bool :=
  (List.range 64).all rookSqOk

/-- Certificate for one square: the bishop magic index is collision-free on
the occupancy subsets of that square's relevant mask. -/
def bishopSqOk (sq : Nat) : Bool :=
  (scanMagic (bishop_magic_numbers.getD sq 0) (64 - bishop_relevant_bits) 64
    (MaskBishopAttacks sq) 0).isSome

/-- Exhaustive certificate that for every square the bishop magic index is
collision-free on the occupancy subsets of that square's relevant mask. -/
def bishopMagicOk : Bool :=
  (List.range 64).all bishopSqOk

/-- Sequence of array stores `table[key i] = val i`, one for each `i` of the
index list in order, as performed by the table-filling loops of
`InitAttackTables`; later stores win, all other entries keep the start table. -/
def writeAll (key val : Nat → Nat) : List Nat → (Nat → Nat) → Nat → Nat
  | [], t => t
  | i :: is, t => writeAll key val is fun j => if j = key i then val i else t j

/-- The row of the global `bishop_attacks[64][512]` table for square `sq` after
`InitAttackTables`: the loop enumerates all `2 ^ CountBits(mask)` occupancy
variations of the square's bishop mask and stores the brute-force attack set
at the magic index of each variation; entries never stored keep the static
zero initialization of the global array. -/
def bishop_attacks (sq : Nat) : Nat → Nat :=
  writeAll (fun idx => bishopMagicIndex sq (SetOccupancy idx (MaskBishopAttacks sq)))
    (fun idx => BishopAttacksOnTheFly sq (SetOccupancy idx (MaskBishopAttacks sq)))
    (List.range (2 ^ CountBits (MaskBishopAttacks sq))) fun _ => 0

/-- The row of the global `rook_attacks[64][4096]` table for square `sq` after
`InitAttackTables`, filled exactly like `bishop_attacks`. -/
def rook_attacks (sq : Nat) : Nat → Nat :=
  writeAll (fun idx => rookMagicIndex sq (SetOccupancy idx (MaskRookAttacks sq)))
    (fun idx => RookAttacksOnTheFly sq (SetOccupancy idx (MaskRookAttacks sq)))
    (List.range (2 ^ CountBits (MaskRookAttacks sq))) fun _ => 0

/-- Modelled from the spec: the slider query of `magic.h` ("mask the given
occupancy bitboard down to the square's relevant-occupancy mask, multiply by
the magic constant, shift, and index"), for rooks. -/
def GetRookAttacks (sq occ : Nat) : Nat :=
  rook_attacks sq (rookMagicIndex sq (occ &&& MaskRookAttacks sq))

/-- Modelled from the spec: the slider query of `magic.h`, for bishops. -/
def GetBishopAttacks (sq occ : Nat) : Nat :=
  bishop_attacks sq (bishopMagicIndex sq (occ &&& MaskBishopAttacks sq))

/-- Modelled from the spec: file of a square under the little-endian rank-file
mapping (`get_file` lookup of `board.h`, not in src). -/
def get_file (sq : Nat) : Nat := sq % 8

/-- Modelled from the spec: rank of a square under the little-endian rank-file
mapping (`get_rank` lookup of `board.h`, not in src). -/
def get_rank (sq : Nat) : Nat := sq / 8

/-- Modelled from the spec: diagonal label of a square; two squares share a
diagonal exactly when `rank - file` agrees, offset by 7 to stay in `Nat`. -/
def get_diagonal (sq : Nat) : Nat := 7 + get_rank sq - get_file sq

/-- Modelled from the spec: antidiagonal label of a square (`rank + file`). -/
def get_antidiagonal (sq : Nat) : Nat := get_rank sq + get_file sq

/-- The `SQUARES_BETWEEN_BB` entry for a pair of squares as computed by
`initializeLookupTables`: a synthetic two-bit occupancy of the two endpoint
squares, rook attack sets intersected when the squares share a file or rank,
bishop attack sets intersected when they share a diagonal or antidiagonal, and
the static zero initialization otherwise. -/
def SQUARES_BETWEEN_BB (sq1 sq2 : Nat) : Nat :=
  let sqs := (1 <<< sq1) ||| (1 <<< sq2)
  if get_file sq1 = get_file sq2 ∨ get_rank sq1 = get_rank sq2 then
    GetRookAttacks sq1 sqs &&& GetRookAttacks sq2 sqs
  else if get_diagonal sq1 = get_diagonal sq2 ∨ get_antidiagonal sq1 = get_antidiagonal sq2 then
    GetBishopAttacks sq1 sqs &&& GetBishopAttacks sq2 sqs
  else 0

/-- Spec-side definition for the refinement claim about `SQUARES_BETWEEN_BB`
(from the spec's words, not from the source): square `s` lies strictly between
squares `sq1` and `sq2` on a shared rank, file, diagonal or antidiagonal
(diagonals are labelled by `7 + rank - file`, antidiagonals by `rank + file`,
both exact in `Nat` since a file is at most 7). -/
def strictlyBetween (sq1 sq2 s : Nat) : Prop :=
  let r1 := sq1 / 8
  let f1 := sq1 % 8
  let r2 := sq2 / 8
  let f2 := sq2 % 8
  let rs := s / 8
  let fs := s % 8
  (r1 = r2 ∧ rs = r1 ∧ min f1 f2 < fs ∧ fs < max f1 f2) ∨
  (f1 = f2 ∧ fs = f1 ∧ min r1 r2 < rs ∧ rs < max r1 r2) ∨
  (7 + r1 - f1 = 7 + r2 - f2 ∧ 7 + rs - fs = 7 + r1 - f1 ∧ min r1 r2 < rs ∧ rs < max r1 r2) ∨
  (r1 + f1 = r2 + f2 ∧ rs + fs = r1 + f1 ∧ min r1 r2 < rs ∧ rs < max r1 r2)

instance (sq1 sq2 s : Nat) : Decidable (strictlyBetween sq1 sq2 s) := by
  unfold strictlyBetween; infer_instance

/-- Spec-side definition for the refinement claim about `SQUARES_BETWEEN_BB`
(from the spec's words): the bitboard of squares strictly between two squares
when they share a rank, file or (anti)diagonal, and zero otherwise. -/
def betweenSpecBB (sq1 sq2 : Nat) : Nat :=
  (List.range 64).foldl
    (fun acc s => if strictlyBetween sq1 sq2 s then acc ||| (1 <<< s) else acc) 0

/-- The Zobrist key tables filled by `initHashKeys`, kept as lists so the
number of keys of each kind is part of the model. -/
structure ZobristKeys where
  PieceKeys : List (List Nat)
  enpassant_keys : List Nat
  CastleKeys : List Nat
  SideKey : Nat

/-- The Zobrist key initialization of `initHashKeys`.  `GetRandomBitboardNumber`
(`random.h`, not in src) is modelled from the spec as a stream `rng` of
pseudo-random 64-bit draws consumed in call order: first the 12 * 64 piece/square
keys (piece types `WP..BK`, squares inner), then one en-passant key for each of
the 64 board squares, then the 16 castling keys, then the side key. -/
def initHashKeys (rng : Nat → Nat) : ZobristKeys where
  PieceKeys := (List.range 12).map fun t => (List.range 64).map fun s => rng (64 * t + s)
  enpassant_keys := (List.range 64).map fun s => rng (768 + s)
  CastleKeys := (List.range 16).map fun i => rng (832 + i)
  SideKey := rng 848

/-- Modelled from the spec: the maximum search depth bound `MAXDEPTH` of
`search.h` is not in src; the claims hold for any positive bound and the
development instantiates it at 128. -/
def MAXDEPTH : Nat := 128

/-- Truncation toward zero, the conversion a C `int` assignment applies to a
`double` value. -/
noncomputable def truncToZero (x : ℝ) : ℤ := if 0 ≤ x then ⌊x⌋ else ⌈x⌉

/-- Truncation toward zero on the rationals, the conversion a C `int`
assignment applies to an exactly-representable `double` value. -/
def truncQ (x : ℚ) : ℤ := if 0 ≤ x then ⌊x⌋ else ⌈x⌉

/-- The reduction formula stored by `InitReductions` into `reductions[b][i][j]`
for `i, j ≥ 1`, with the C `double` arithmetic modelled over the reals:
`-0.25 + log(i) * log(j) / 2.25` for the first table and
`1.00 + log(i) * log(j) / 2.00` for the second. -/
noncomputable def redFormula (b : Bool) (i j : Nat) : ℤ :=
  if b then truncToZero (1 + Real.log i * Real.log j / 2)
  else truncToZero (-0.25 + Real.log i * Real.log j / 2.25)

/-- Pointwise store into the `reductions[2][MAXDEPTH][MAXPLY]` table modelled
as a function update. -/
def updR (t : Bool → Nat → Nat → ℤ) (b : Bool) (i j : Nat) (v : ℤ) :
    Bool → Nat → Nat → ℤ :=
  fun b' i' j' => if b' = b ∧ i' = i ∧ j' = j then v else t b' i' j'

/-- The `reductions` table produced by `InitReductions` from a prior table
state `t0`: first `reductions[0][0][0]` and `reductions[1][0][0]` are set to 0,
then both formulas are stored for every `1 ≤ i < MAXDEPTH`, `1 ≤ j < MAXDEPTH`;
no other entry is written. -/
noncomputable def InitReductions_reductions (t0 : Bool → Nat → Nat → ℤ) :
    Bool → Nat → Nat → ℤ :=
  (List.range' 1 (MAXDEPTH - 1)).foldl
    (fun t i =>
      (List.range' 1 (MAXDEPTH - 1)).foldl
        (fun t j => updR (updR t false i j (redFormula false i j)) true i j (redFormula true i j))
        t)
    (updR (updR t0 false 0 0 0) true 0 0 0)

/-- The late-move-pruning margin table filled by `InitReductions`:
`lmp_margin[depth][0] = 1.5 + 0.5 * depth^2` (not improving) and
`lmp_margin[depth][1] = 3.0 + 1.0 * depth^2` (improving), truncated to `int`;
the arithmetic is exact in `double` and modelled over the rationals.  The loop
tabulates exactly this value for every `depth < MAXDEPTH`. -/
def lmp_margin (depth : Nat) (improving : Bool) : ℤ :=
  if improving then truncQ (3 + 1 * (depth : ℚ) ^ 2)
  else truncQ (3 / 2 + 1 / 2 * (depth : ℚ) ^ 2)

/-- The static-exchange-pruning margin table filled by `InitReductions`:
`see_margin[depth][1] = -80 * depth` for quiet moves and
`see_margin[depth][0] = -30 * depth * depth` for non-quiet moves, in `int`
arithmetic.  The loop tabulates exactly this value for every
`depth < MAXDEPTH`. -/
def see_margin (depth : Nat) (quiet : Bool) : ℤ :=
  if quiet then -80 * (depth : ℤ) else -30 * (depth : ℤ) * (depth : ℤ)

/-- Modelled from the spec: the null-move encoding `NOMOVE` (`move.h`, not in
src); the `memset` of the counter-move table with it byte-wise is consistent
only with the conventional value 0. -/
def NOMOVE : Nat := 0

/-- The principal-variation table of a search worker. -/
structure PvTable where
  pvLength : Nat → Nat
  pvArray : Nat → Nat → Nat

/-- The per-thread move-ordering state; `histories` stands for the killer,
history and capture-history tables cleared by `CleanHistories` (`history.h`,
not in src), `counterMoves` is the counter-move table the source clears with
`memset`. -/
structure SearchData where
  histories : Nat → Nat
  counterMoves : Nat → Nat → Nat

/-- The per-search bookkeeping of a worker. -/
structure SearchInfo where
  starttime : Nat
  stopped : Nat
  nodes : Nat
  seldepth : Nat

/-- The position owned by a worker; piece placement is one bitboard per piece
type `WP..BK`, and `played_positions` is the hash history used for repetition
detection. -/
structure Position where
  bitboards : List Nat
  side : Nat
  castleRights : Nat
  enPas : Nat
  fiftyMove : Nat
  played_positions : List Nat

/-- The state a `ThreadData` worker owns. -/
structure ThreadData where
  pos : Position
  sd : SearchData
  info : SearchInfo
  pvTable : PvTable

/-- The transposition table, modelled by its list of stored entries (hash and
packed data); `ClearTT` is specified to drop all entries. -/
structure TTable where
  entries : List (Nat × Nat)

/-- The process state `InitNewGame` acts on: the worker it resets, the global
transposition table, and the helper-thread list `threads_data`. -/
structure EngineState where
  td : ThreadData
  tt : TTable
  threads_data : List ThreadData

/-- Modelled from the spec: `CleanHistories` (`history.h`, not in src) clears
the per-thread history tables ("Reset: cleared at the start of every new
game"); the counter-move table is cleared separately by the source. -/
def CleanHistories (sd : SearchData) : SearchData :=
  { sd with histories := fun _ => 0 }

/-- Modelled from the spec: `ClearTT` (`ttable.h`, not in src) "drops all
entries". -/
def ClearTT (_t : TTable) : TTable := ⟨[]⟩

/-- Modelled from the spec: the standard chess starting position produced by
the external position parser for `position startpos`, with the little-endian
rank-file mapping; 64 encodes "no en-passant square".  The parser does not
touch the played-position history. -/
def ParsePositionStartpos (pos : Position) : Position where
  bitboards :=
    [65280, 66, 36, 129, 8, 16,
     71776119061217280, 4755801206503243776, 2594073385365405696,
     9295429630892703744, 576460752303423488, 1152921504606846976]
  side := 0
  castleRights := 15
  enPas := 64
  fiftyMove := 0
  played_positions := pos.played_positions

/-- The body of the pv-clearing loop of `InitNewGame`: for one outer index the
length entry is zeroed and the inner loop stores `NOMOVE` into every
`pvArray[index][index2]` for `index2 ≤ MAXDEPTH`. -/
def clearPvRow (pv : PvTable) (idx : Nat) : PvTable :=
  (List.range (MAXDEPTH + 1)).foldl
    (fun pv idx2 => ⟨pv.pvLength, fun i j => if i = idx ∧ j = idx2 then NOMOVE else pv.pvArray i j⟩)
    ⟨fun i => if i = idx then 0 else pv.pvLength i, pv.pvArray⟩

/-- The new-game reset `InitNewGame`: clean the histories, clear the PV table
for all indices `0..MAXDEPTH`, clear the counter-move table, reset the search
info (start time from the external clock `now`, stop flag, node and
selective-depth counters), clear the transposition table, stop and drop the
helper threads, clear the played-position history and parse the start
position. -/
def InitNewGame (now : Nat) (st : EngineState) : EngineState where
  td :=
    { pos := ParsePositionStartpos { st.td.pos with played_positions := [] }
      sd := { CleanHistories st.td.sd with counterMoves := fun _ _ => NOMOVE }
      info := { starttime := now, stopped := 0, nodes := 0, seldepth := 0 }
      pvTable := (List.range (MAXDEPTH + 1)).foldl clearPvRow st.td.pvTable }
  tt := ClearTT st.tt
  threads_data := []

/-- Verification helper (not from the source): `SQUARES_BETWEEN_BB` with the
magic-table queries replaced by the brute-force ray casts they are proved
equal to; used to evaluate the table entries by computation. -/
def SQUARES_BETWEEN_OTF (sq1 sq2 : Nat) : Nat :=
  let sqs := (1 <<< sq1) ||| (1 <<< sq2)
  if get_file sq1 = get_file sq2 ∨ get_rank sq1 = get_rank sq2 then
    RookAttacksOnTheFly sq1 (sqs &&& MaskRookAttacks sq1) &&&
      RookAttacksOnTheFly sq2 (sqs &&& MaskRookAttacks sq2)
  else if get_diagonal sq1 = get_diagonal sq2 ∨ get_antidiagonal sq1 = get_antidiagonal sq2 then
    BishopAttacksOnTheFly sq1 (sqs &&& MaskBishopAttacks sq1) &&&
      BishopAttacksOnTheFly sq2 (sqs &&& MaskBishopAttacks sq2)
  else 0

/-- Verification helper (not from the source): boolean mirror of
`strictlyBetween`, used by the fast exhaustive pair check. -/
def strictlyBetweenB (sq1 sq2 s : Nat) : Bool :=
  let r1 := sq1 / 8
  let f1 := sq1 % 8
  let r2 := sq2 / 8
  let f2 := sq2 % 8
  let rs := s / 8
  let fs := s % 8
  ((r1 == r2) && (rs == r1) && Nat.blt (min f1 f2) fs && Nat.blt fs (max f1 f2)) ||
  ((f1 == f2) && (fs == f1) && Nat.blt (min r1 r2) rs && Nat.blt rs (max r1 r2)) ||
  ((7 + r1 - f1 == 7 + r2 - f2) && (7 + rs - fs == 7 + r1 - f1) &&
    Nat.blt (min r1 r2) rs && Nat.blt rs (max r1 r2)) ||
  ((r1 + f1 == r2 + f2) && (rs + fs == r1 + f1) &&
    Nat.blt (min r1 r2) rs && Nat.blt rs (max r1 r2))

/-- Verification helper (not from the source): the two squares share a rank,
file, diagonal or antidiagonal. -/
def alignedB (sq1 sq2 : Nat) : Bool :=
  let r1 := sq1 / 8
  let f1 := sq1 % 8
  let r2 := sq2 / 8
  let f2 := sq2 % 8
  (r1 == r2) || (f1 == f2) || (7 + r1 - f1 == 7 + r2 - f2) || (r1 + f1 == r2 + f2)

/-- Verification helper (not from the source): `betweenSpecBB` restated so the
exhaustive pair check evaluates quickly; non-aligned pairs return 0 at once and
aligned pairs only scan the squares numerically between the endpoints.  Proved
pointwise equal to `betweenSpecBB` in `betweenSpecFast_eq`. -/
def betweenSpecFast (sq1 sq2 : Nat) : Nat :=
  if alignedB sq1 sq2 then
    (List.range' (min sq1 sq2 + 1) (max sq1 sq2 - min sq1 sq2 - 1)).foldl
      (fun acc s => if strictlyBetweenB sq1 sq2 s then acc ||| (1 <<< s) else acc) 0
  else 0

/-- Verification helper (not from the source): check that for one square `s1`
and every square `s2` distinct from it the computed squares-between bitboard
agrees with the spec-side strictly-between bitboard. -/
def betweenRowOk (s1 : Nat) : Bool :=
  (List.range 64).all fun s2 =>
    s1 == s2 || (SQUARES_BETWEEN_OTF s1 s2 == betweenSpecFast s1 s2)

/-- Verification helper (not from the source): exhaustive check that for every
pair of distinct squares the computed squares-between bitboard agrees with the
spec-side strictly-between bitboard. -/
def betweenPairsOk : Bool :=
  (List.range 64).all betweenRowOk

/-- Verification helper (not from the source): a concrete engine state used to
instantiate universally quantified theorems in witness statements. -/
def dummyState : EngineState where
  td :=
    { pos :=
        { bitboards := [], side := 1, castleRights := 3, enPas := 20, fiftyMove := 7,
          played_positions := [5, 6] }
      sd := { histories := fun _ => 9, counterMoves := fun _ _ => 9 }
      info := { starttime := 4, stopped := 1, nodes := 33, seldepth := 12 }
      pvTable := { pvLength := fun _ => 3, pvArray := fun _ _ => 8 } }
  tt := ⟨[(10, 11)]⟩
  threads_data := []

theorem add_eq_or_of_and_eq_zero {x : Nat} :
    ∀ {y : Nat}, x &&& y = 0 → x + y = x ||| y := by
  induction x using Nat.binaryRec with
  | z => intro y _; simp
  | f b n ih =>
    intro y h
    induction y using Nat.bitCasesOn with
    | h c m =>
      rw [Nat.land_bit, Nat.bit_eq_zero_iff] at h
      have hnm : n + m = n ||| m := ih h.1
      have hbc : (b && c) = false := h.2
      rw [Nat.lor_bit]
      cases b <;> cases c
      · simp only [Nat.bit_val, Bool.toNat_false, Bool.or_self]; omega
      · simp only [Nat.bit_val, Bool.toNat_false, Bool.toNat_true, Bool.false_or]; omega
      · simp only [Nat.bit_val, Bool.toNat_false, Bool.toNat_true, Bool.or_false]; omega
      · exact absurd hbc (by simp)

theorem lowBit_spec {m : Nat} (hm : m ≠ 0) :
    ∃ t, lowBit m = 2 ^ t ∧ m = 2 ^ t + clearLow m ∧ 2 ^ t &&& clearLow m = 0 := by
  induction m using Nat.binaryRec with
  | z => exact absurd rfl hm
  | f b n ih =>
    cases b with
    | true =>
      refine ⟨0, ?_, ?_, ?_⟩
      · have h1 : Nat.bit true n - 1 = Nat.bit false n := by
          simp [Nat.bit_val]
        rw [lowBit, h1, Nat.xor_bit, Nat.land_bit]
        simp [Nat.bit_val]
      · have h1 : Nat.bit true n - 1 = Nat.bit false n := by
          simp [Nat.bit_val]
        rw [clearLow, h1, Nat.land_bit]
        simp only [Nat.bit_val, Bool.and_false, Bool.toNat_false, Bool.toNat_true,
          Nat.and_self, pow_zero]
        omega
      · have h1 : Nat.bit true n - 1 = Nat.bit false n := by
          simp [Nat.bit_val]
        rw [clearLow, h1, Nat.land_bit]
        have h2 : (2 : Nat) ^ 0 = Nat.bit true 0 := by simp [Nat.bit_val]
        rw [h2, Nat.land_bit]
        simp [Nat.bit_val]
    | false =>
      have hn : n ≠ 0 := by
        intro h0
        exact hm (by simp [h0, Nat.bit_val])
      obtain ⟨t, hl, hsplit, hdisj⟩ := ih hn
      have h1 : Nat.bit false n - 1 = Nat.bit true (n - 1) := by
        have : 1 ≤ n := Nat.pos_of_ne_zero hn
        simp [Nat.bit_val]
        omega
      refine ⟨t + 1, ?_, ?_, ?_⟩
      · rw [lowBit, h1, Nat.xor_bit, Nat.land_bit]
        have : n &&& (n ^^^ (n - 1)) = 2 ^ t := hl
        simp [Nat.bit_val, this, Nat.pow_succ, Nat.mul_comm]
      · rw [clearLow, h1, Nat.land_bit]
        have : n &&& (n - 1) = clearLow n := rfl
        simp only [Bool.and_true, Nat.bit_val, Bool.toNat_false, this]
        have := hsplit
        ring_nf
        omega
      · rw [clearLow, h1, Nat.land_bit]
        have h2 : (2 : Nat) ^ (t + 1) = Nat.bit false (2 ^ t) := by
          simp [Nat.bit_val, Nat.pow_succ, Nat.mul_comm]
        rw [h2, Nat.land_bit]
        have : n &&& (n - 1) = clearLow n := rfl
        simp [this, hdisj, Nat.bit_val]

theorem clearLow_lt {m : Nat} (h : m ≠ 0) : clearLow m < m :=
  Nat.lt_of_le_of_lt Nat.and_le_right (Nat.sub_lt (Nat.pos_of_ne_zero h) Nat.one_pos)

theorem SetOccupancy_zero_mask (index : Nat) : SetOccupancy index 0 = 0 := by
  rw [SetOccupancy]; simp

theorem SetOccupancy_subset (mask : Nat) :
    ∀ index, SetOccupancy index mask &&& mask = SetOccupancy index mask := by
  induction mask using Nat.strong_induction_on with
  | _ mask ih =>
    intro index
    by_cases hm : mask = 0
    · subst hm; rw [SetOccupancy_zero_mask]; simp
    · obtain ⟨t, hl, hsplit, hdisj⟩ := lowBit_spec hm
      have hlt : clearLow mask < mask := clearLow_lt hm
      have hrc : SetOccupancy (index / 2) (clearLow mask) &&& clearLow mask =
          SetOccupancy (index / 2) (clearLow mask) := ih (clearLow mask) hlt (index / 2)
      have hc2t : clearLow mask &&& 2 ^ t = 0 := by rw [Nat.and_comm]; exact hdisj
      have hr2t : SetOccupancy (index / 2) (clearLow mask) &&& 2 ^ t = 0 := by
        rw [← hrc, Nat.and_assoc, hc2t, Nat.and_zero]
      have hmask_or : mask = 2 ^ t ||| clearLow mask :=
        hsplit.trans (add_eq_or_of_and_eq_zero hdisj)
      have hand : ∀ x : Nat, x &&& mask = x &&& 2 ^ t ||| x &&& clearLow mask := by
        intro x
        conv_lhs => rw [hmask_or]
        rw [Nat.and_or_distrib_left]
      rw [SetOccupancy, dif_neg hm]
      by_cases hp : index % 2 = 1
      · simp only [hp, if_true, hl]
        have hdisj2 : 2 ^ t &&& SetOccupancy (index / 2) (clearLow mask) = 0 := by
          rw [Nat.and_comm]; exact hr2t
        rw [add_eq_or_of_and_eq_zero hdisj2, Nat.and_distrib_right, hand, hand,
          Nat.and_self, hdisj, Nat.or_zero, hr2t, hrc, Nat.zero_or]
      · simp only [hp, if_false, Nat.zero_add]
        rw [hand, hr2t, hrc, Nat.zero_or]

theorem SetOccupancy_extIndex (mask : Nat) :
    ∀ occ, SetOccupancy (extIndex occ mask) mask = occ &&& mask := by
  induction mask using Nat.strong_induction_on with
  | _ mask ih =>
    intro occ
    by_cases hm : mask = 0
    · subst hm; rw [SetOccupancy_zero_mask]; simp
    · obtain ⟨t, hl, hsplit, hdisj⟩ := lowBit_spec hm
      have hlt : clearLow mask < mask := clearLow_lt hm
      have hIH : SetOccupancy (extIndex occ (clearLow mask)) (clearLow mask) =
          occ &&& clearLow mask := ih (clearLow mask) hlt occ
      have hc2t : clearLow mask &&& 2 ^ t = 0 := by rw [Nat.and_comm]; exact hdisj
      have hmask_or : mask = 2 ^ t ||| clearLow mask :=
        hsplit.trans (add_eq_or_of_and_eq_zero hdisj)
      have hocc_c_2t : occ &&& clearLow mask &&& 2 ^ t = 0 := by
        rw [Nat.and_assoc, hc2t, Nat.and_zero]
      have hand : ∀ x : Nat, x &&& mask = x &&& 2 ^ t ||| x &&& clearLow mask := by
        intro x
        conv_lhs => rw [hmask_or]
        rw [Nat.and_or_distrib_left]
      rw [extIndex, dif_neg hm]
      by_cases h0 : occ &&& lowBit mask = 0
      · simp only [h0, if_true]
        rw [SetOccupancy, dif_neg hm]
        have hmod : ¬(0 + 2 * extIndex occ (clearLow mask)) % 2 = 1 := by omega
        have hdiv : (0 + 2 * extIndex occ (clearLow mask)) / 2 = extIndex occ (clearLow mask) := by
          omega
        rw [if_neg hmod, hdiv, Nat.zero_add, hIH]
        rw [hl] at h0
        rw [hand, h0, Nat.zero_or]
      · simp only [h0, if_false]
        rw [SetOccupancy, dif_neg hm]
        have hmod : (1 + 2 * extIndex occ (clearLow mask)) % 2 = 1 := by omega
        have hdiv : (1 + 2 * extIndex occ (clearLow mask)) / 2 = extIndex occ (clearLow mask) := by
          omega
        rw [if_pos hmod, hdiv, hIH, hl]
        rw [hl] at h0
        have h2t : occ &&& 2 ^ t = 2 ^ t := by
          have h := Nat.and_two_pow occ t
          rcases hb : occ.testBit t with hf | ht
          · rw [hb] at h; simp at h; exact absurd h h0
          · rw [hb] at h; simpa using h
        have hdisj3 : 2 ^ t &&& (occ &&& clearLow mask) = 0 := by
          rw [Nat.and_comm]; exact hocc_c_2t
        rw [add_eq_or_of_and_eq_zero hdisj3, hand, h2t]

theorem extIndex_lt (mask : Nat) : ∀ occ, extIndex occ mask < 2 ^ CountBits mask := by
  induction mask using Nat.strong_induction_on with
  | _ mask ih =>
    intro occ
    by_cases hm : mask = 0
    · subst hm; rw [extIndex, CountBits]; simp
    · have hlt : clearLow mask < mask := clearLow_lt hm
      have hIH := ih (clearLow mask) hlt occ
      rw [extIndex, dif_neg hm, CountBits, dif_neg hm, Nat.pow_add, Nat.pow_one]
      by_cases h0 : occ &&& lowBit mask = 0 <;> simp only [h0, if_true, if_false] <;> omega

theorem testBit_clearLow_false {mask t : Nat} (hdisj : 2 ^ t &&& clearLow mask = 0) :
    (clearLow mask).testBit t = false := by
  have h := congrArg (fun x => x.testBit t) hdisj
  simpa [Nat.testBit_and, Nat.testBit_two_pow_self] using h

theorem testBit_subset_false {x c t : Nat} (hx : x &&& c = x) (hc : c.testBit t = false) :
    x.testBit t = false := by
  have h := congrArg (fun y => y.testBit t) hx
  simp only [Nat.testBit_and, hc, Bool.and_false] at h
  exact h.symm

theorem SetOccupancy_unfold {mask : Nat} (hm : mask ≠ 0) (i : Nat) :
    SetOccupancy i mask =
      (if i % 2 = 1 then lowBit mask else 0) + SetOccupancy (i / 2) (clearLow mask) := by
  conv_lhs => rw [SetOccupancy]
  rw [dif_neg hm]

theorem SetOccupancy_inj (mask : Nat) :
    ∀ i1 i2, i1 < 2 ^ CountBits mask → i2 < 2 ^ CountBits mask →
      SetOccupancy i1 mask = SetOccupancy i2 mask → i1 = i2 := by
  induction mask using Nat.strong_induction_on with
  | _ mask ih =>
    intro i1 i2 h1 h2 heq
    by_cases hm : mask = 0
    · subst hm; rw [CountBits] at h1 h2; simp at h1 h2; omega
    · obtain ⟨t, hl, hsplit, hdisj⟩ := lowBit_spec hm
      have hlt : clearLow mask < mask := clearLow_lt hm
      have hct : (clearLow mask).testBit t = false := testBit_clearLow_false hdisj
      have hrt : ∀ i : Nat, (SetOccupancy i (clearLow mask)).testBit t = false := fun i =>
        testBit_subset_false (SetOccupancy_subset (clearLow mask) i) hct
      have hbit : ∀ i : Nat,
          ((if i % 2 = 1 then lowBit mask else 0) + SetOccupancy (i / 2) (clearLow mask)).testBit t
            = decide (i % 2 = 1) := by
        intro i
        by_cases hp : i % 2 = 1
        · simp only [hp, if_true, hl, decide_eq_true_eq]
          have hdisj2 : 2 ^ t &&& SetOccupancy (i / 2) (clearLow mask) = 0 := by
            have hsub := SetOccupancy_subset (clearLow mask) (i / 2)
            rw [← hsub, Nat.and_comm (SetOccupancy (i / 2) (clearLow mask)) (clearLow mask),
              ← Nat.and_assoc, hdisj, Nat.zero_and]
          rw [add_eq_or_of_and_eq_zero hdisj2]
          simp [Nat.testBit_or, Nat.testBit_two_pow_self, hp]
        · rw [if_neg hp, Nat.zero_add, hrt (i / 2)]
          simp [hp]
      rw [SetOccupancy_unfold hm i1, SetOccupancy_unfold hm i2] at heq
      have hpar : (i1 % 2 = 1) ↔ (i2 % 2 = 1) := by
        have hb := congrArg (fun x => x.testBit t) heq
        simp only [hbit] at hb
        constructor <;> intro h <;>
          [exact of_decide_eq_true ((hb.symm).trans (decide_eq_true h));
           exact of_decide_eq_true (hb.trans (decide_eq_true h))]
      have hb0eq : (if i1 % 2 = 1 then lowBit mask else 0) =
          (if i2 % 2 = 1 then lowBit mask else 0) := by
        by_cases hp : i1 % 2 = 1
        · rw [if_pos hp, if_pos (hpar.mp hp)]
        · rw [if_neg hp, if_neg (fun h => hp (hpar.mpr h))]
      rw [hb0eq] at heq
      have hrest : SetOccupancy (i1 / 2) (clearLow mask) = SetOccupancy (i2 / 2) (clearLow mask) :=
        Nat.add_left_cancel heq
      rw [CountBits, dif_neg hm, Nat.pow_add, Nat.pow_one] at h1 h2
      have hdivlt1 : i1 / 2 < 2 ^ CountBits (clearLow mask) := by omega
      have hdivlt2 : i2 / 2 < 2 ^ CountBits (clearLow mask) := by omega
      have hdiv := ih (clearLow mask) hlt (i1 / 2) (i2 / 2) hdivlt1 hdivlt2 hrest
      omega

theorem scanMagic_mem (magic shift : Nat) :
    ∀ (fu mask occ s : Nat), scanMagic magic shift fu mask occ = some s →
      ∀ idx, s.testBit (((occ + SetOccupancy idx mask) * magic % B64) >>> shift) = true := by
  intro fu
  induction fu with
  | zero => intro mask occ s h idx; simp [scanMagic] at h
  | succ fu ih =>
    intro mask occ s h idx
    rw [scanMagic] at h
    by_cases hm : mask = 0
    · subst hm
      rw [if_pos rfl] at h
      have hs := Option.some.inj h
      rw [← hs, SetOccupancy_zero_mask, Nat.add_zero, Nat.shiftLeft_eq, Nat.one_mul]
      exact Nat.testBit_two_pow_self
    · rw [if_neg hm] at h
      split at h
      · next a b ha hb =>
        split at h
        · next hdisj =>
          have hs := Option.some.inj h
          rw [SetOccupancy_unfold hm idx]
          by_cases hp : idx % 2 = 1
          · rw [if_pos hp, ← Nat.add_assoc]
            have := ih (clearLow mask) (occ + lowBit mask) b hb (idx / 2)
            rw [← hs, Nat.testBit_or, this]
            simp
          · rw [if_neg hp, Nat.zero_add]
            have := ih (clearLow mask) occ a ha (idx / 2)
            rw [← hs, Nat.testBit_or, this]
            simp
        · exact absurd h (by simp)
      · next hno =>
        exact absurd h (by simp)

theorem scanMagic_inj (magic shift : Nat) :
    ∀ (fu mask occ s : Nat), scanMagic magic shift fu mask occ = some s →
      ∀ i1 i2,
        ((occ + SetOccupancy i1 mask) * magic % B64) >>> shift =
          ((occ + SetOccupancy i2 mask) * magic % B64) >>> shift →
        SetOccupancy i1 mask = SetOccupancy i2 mask := by
  intro fu
  induction fu with
  | zero => intro mask occ s h; simp [scanMagic] at h
  | succ fu ih =>
    intro mask occ s h i1 i2 heq
    rw [scanMagic] at h
    by_cases hm : mask = 0
    · subst hm; rw [SetOccupancy_zero_mask, SetOccupancy_zero_mask]
    · rw [if_neg hm] at h
      split at h
      · next a b ha hb =>
        split at h
        · next hdisj =>
          rw [SetOccupancy_unfold hm i1, SetOccupancy_unfold hm i2] at heq ⊢
          by_cases hp1 : i1 % 2 = 1 <;> by_cases hp2 : i2 % 2 = 1
          · rw [if_pos hp1, if_pos hp2] at heq ⊢
            rw [← Nat.add_assoc, ← Nat.add_assoc] at heq
            rw [ih (clearLow mask) (occ + lowBit mask) b hb (i1 / 2) (i2 / 2) heq]
          · exfalso
            rw [if_pos hp1, if_neg hp2, Nat.zero_add, ← Nat.add_assoc] at heq
            have t1 := scanMagic_mem magic shift fu (clearLow mask) (occ + lowBit mask) b hb
              (i1 / 2)
            have t2 := scanMagic_mem magic shift fu (clearLow mask) occ a ha (i2 / 2)
            rw [heq] at t1
            have : (a &&& b).testBit
                (((occ + SetOccupancy (i2 / 2) (clearLow mask)) * magic % B64) >>> shift) =
                true := by
              rw [Nat.testBit_and, t1, t2]
              rfl
            rw [hdisj, Nat.zero_testBit] at this
            cases this
          · exfalso
            rw [if_neg hp1, if_pos hp2, Nat.zero_add, ← Nat.add_assoc] at heq
            have t1 := scanMagic_mem magic shift fu (clearLow mask) occ a ha (i1 / 2)
            have t2 := scanMagic_mem magic shift fu (clearLow mask) (occ + lowBit mask) b hb
              (i2 / 2)
            rw [← heq] at t2
            have : (a &&& b).testBit
                (((occ + SetOccupancy (i1 / 2) (clearLow mask)) * magic % B64) >>> shift) =
                true := by
              rw [Nat.testBit_and, t1, t2]
              rfl
            rw [hdisj, Nat.zero_testBit] at this
            cases this
          · rw [if_neg hp1, if_neg hp2, Nat.zero_add, Nat.zero_add] at heq ⊢
            rw [ih (clearLow mask) occ a ha (i1 / 2) (i2 / 2) heq]
        · exact absurd h (by simp)
      · exact absurd h (by simp)

theorem writeAll_not_mem (key val : Nat → Nat) :
    ∀ (l : List Nat) (t : Nat → Nat) (k : Nat),
      (∀ i ∈ l, k ≠ key i) → writeAll key val l t k = t k := by
  intro l
  induction l with
  | nil => intro t k _; rfl
  | cons a l ih =>
    intro t k h
    rw [writeAll]
    calc writeAll key val l (fun j => if j = key a then val a else t j) k
        = (fun j => if j = key a then val a else t j) k :=
          ih _ k fun i hi => h i (List.mem_cons_of_mem a hi)
      _ = t k := by simp [h a (List.mem_cons_self a l)]

theorem writeAll_mem (key val : Nat → Nat) :
    ∀ (l : List Nat) (t : Nat → Nat) (i : Nat), i ∈ l → (l.map key).Nodup →
      writeAll key val l t (key i) = val i := by
  intro l
  induction l with
  | nil => intro t i hi _; cases hi
  | cons a l ih =>
    intro t i hi hnd
    rw [List.map_cons, List.nodup_cons] at hnd
    rw [writeAll]
    rcases List.mem_cons.mp hi with rfl | hil
    · rw [writeAll_not_mem]
      · simp
      · intro j hj hEq
        exact hnd.1 (hEq ▸ List.mem_map_of_mem key hj)
    · exact ih _ i hil hnd.2

theorem rook_attacks_correct {sq : Nat}
    (hcert : ∃ s, scanMagic (rook_magic_numbers.getD sq 0) (64 - rook_relevant_bits) 64
      (MaskRookAttacks sq) 0 = some s)
    {occ : Nat} (hsub : occ &&& MaskRookAttacks sq = occ) :
    rook_attacks sq (rookMagicIndex sq occ) = RookAttacksOnTheFly sq occ := by
  obtain ⟨s, hs⟩ := hcert
  have he : SetOccupancy (extIndex occ (MaskRookAttacks sq)) (MaskRookAttacks sq) = occ := by
    rw [SetOccupancy_extIndex, hsub]
  have hel : extIndex occ (MaskRookAttacks sq) ∈
      List.range (2 ^ CountBits (MaskRookAttacks sq)) :=
    List.mem_range.mpr (extIndex_lt (MaskRookAttacks sq) occ)
  have hnd : (((List.range (2 ^ CountBits (MaskRookAttacks sq))).map
      (fun idx => rookMagicIndex sq (SetOccupancy idx (MaskRookAttacks sq))))).Nodup := by
    refine List.Nodup.map_on ?_ (List.nodup_range _)
    intro x hx y hy hxy
    have hxy' : ((0 + SetOccupancy x (MaskRookAttacks sq)) * rook_magic_numbers.getD sq 0 % B64)
        >>> (64 - rook_relevant_bits) =
        ((0 + SetOccupancy y (MaskRookAttacks sq)) * rook_magic_numbers.getD sq 0 % B64)
        >>> (64 - rook_relevant_bits) := by
      simpa [rookMagicIndex, Nat.zero_add] using hxy
    have hset := scanMagic_inj (rook_magic_numbers.getD sq 0) (64 - rook_relevant_bits) 64
      (MaskRookAttacks sq) 0 s hs x y hxy'
    exact SetOccupancy_inj (MaskRookAttacks sq) x y (List.mem_range.mp hx)
      (List.mem_range.mp hy) hset
  have hw := writeAll_mem (fun idx => rookMagicIndex sq (SetOccupancy idx (MaskRookAttacks sq)))
    (fun idx => RookAttacksOnTheFly sq (SetOccupancy idx (MaskRookAttacks sq)))
    (List.range (2 ^ CountBits (MaskRookAttacks sq))) (fun _ => 0)
    (extIndex occ (MaskRookAttacks sq)) hel hnd
  simp only [he] at hw
  exact hw

theorem bishop_attacks_correct {sq : Nat}
    (hcert : ∃ s, scanMagic (bishop_magic_numbers.getD sq 0) (64 - bishop_relevant_bits) 64
      (MaskBishopAttacks sq) 0 = some s)
    {occ : Nat} (hsub : occ &&& MaskBishopAttacks sq = occ) :
    bishop_attacks sq (bishopMagicIndex sq occ) = BishopAttacksOnTheFly sq occ := by
  obtain ⟨s, hs⟩ := hcert
  have he : SetOccupancy (extIndex occ (MaskBishopAttacks sq)) (MaskBishopAttacks sq) = occ := by
    rw [SetOccupancy_extIndex, hsub]
  have hel : extIndex occ (MaskBishopAttacks sq) ∈
      List.range (2 ^ CountBits (MaskBishopAttacks sq)) :=
    List.mem_range.mpr (extIndex_lt (MaskBishopAttacks sq) occ)
  have hnd : (((List.range (2 ^ CountBits (MaskBishopAttacks sq))).map
      (fun idx => bishopMagicIndex sq (SetOccupancy idx (MaskBishopAttacks sq))))).Nodup := by
    refine List.Nodup.map_on ?_ (List.nodup_range _)
    intro x hx y hy hxy
    have hxy' : ((0 + SetOccupancy x (MaskBishopAttacks sq)) * bishop_magic_numbers.getD sq 0
        % B64) >>> (64 - bishop_relevant_bits) =
        ((0 + SetOccupancy y (MaskBishopAttacks sq)) * bishop_magic_numbers.getD sq 0 % B64)
        >>> (64 - bishop_relevant_bits) := by
      simpa [bishopMagicIndex, Nat.zero_add] using hxy
    have hset := scanMagic_inj (bishop_magic_numbers.getD sq 0) (64 - bishop_relevant_bits) 64
      (MaskBishopAttacks sq) 0 s hs x y hxy'
    exact SetOccupancy_inj (MaskBishopAttacks sq) x y (List.mem_range.mp hx)
      (List.mem_range.mp hy) hset
  have hw := writeAll_mem
    (fun idx => bishopMagicIndex sq (SetOccupancy idx (MaskBishopAttacks sq)))
    (fun idx => BishopAttacksOnTheFly sq (SetOccupancy idx (MaskBishopAttacks sq)))
    (List.range (2 ^ CountBits (MaskBishopAttacks sq))) (fun _ => 0)
    (extIndex occ (MaskBishopAttacks sq)) hel hnd
  simp only [he] at hw
  exact hw

theorem rookCert_of_ok (h : rookMagicOk = true) {sq : Nat} (hsq : sq < 64) :
    ∃ s, scanMagic (rook_magic_numbers.getD sq 0) (64 - rook_relevant_bits) 64
      (MaskRookAttacks sq) 0 = some s := by
  have hpt := List.all_eq_true.mp h sq (List.mem_range.mpr hsq)
  unfold rookSqOk at hpt
  exact Option.isSome_iff_exists.mp hpt

theorem bishopCert_of_ok (h : bishopMagicOk = true) {sq : Nat} (hsq : sq < 64) :
    ∃ s, scanMagic (bishop_magic_numbers.getD sq 0) (64 - bishop_relevant_bits) 64
      (MaskBishopAttacks sq) 0 = some s := by
  have hpt := List.all_eq_true.mp h sq (List.mem_range.mpr hsq)
  unfold bishopSqOk at hpt
  exact Option.isSome_iff_exists.mp hpt

theorem redInner_ne {F0 F1 : Nat → ℤ} {i : Nat} :
    ∀ (L : List Nat) (t : Bool → Nat → Nat → ℤ) (b : Bool) (i' j' : Nat), ¬i' = i →
      (L.foldl (fun t j => updR (updR t false i j (F0 j)) true i j (F1 j)) t) b i' j' =
        t b i' j' := by
  intro L
  induction L with
  | nil => intro t b i' j' _; rfl
  | cons a L ih =>
    intro t b i' j' hne
    rw [List.foldl_cons, ih _ _ _ _ hne]
    simp [updR, hne]

theorem redInner_notmem {F0 F1 : Nat → ℤ} {i : Nat} :
    ∀ (L : List Nat) (t : Bool → Nat → Nat → ℤ) (b : Bool) (i' j' : Nat), j' ∉ L →
      (L.foldl (fun t j => updR (updR t false i j (F0 j)) true i j (F1 j)) t) b i' j' =
        t b i' j' := by
  intro L
  induction L with
  | nil => intro t b i' j' _; rfl
  | cons a L ih =>
    intro t b i' j' hnm
    rw [List.mem_cons, not_or] at hnm
    rw [List.foldl_cons, ih _ _ _ _ hnm.2]
    simp [updR, hnm.1]

theorem redInner_mem {F0 F1 : Nat → ℤ} {i : Nat} :
    ∀ (L : List Nat) (t : Bool → Nat → Nat → ℤ) (b : Bool) (j : Nat), j ∈ L → L.Nodup →
      (L.foldl (fun t j => updR (updR t false i j (F0 j)) true i j (F1 j)) t) b i j =
        if b then F1 j else F0 j := by
  intro L
  induction L with
  | nil => intro t b j h _; cases h
  | cons a L ih =>
    intro t b j hj hnd
    rw [List.nodup_cons] at hnd
    rw [List.foldl_cons]
    rcases List.mem_cons.mp hj with rfl | hjl
    · rw [redInner_notmem L _ b i j hnd.1]
      cases b <;> simp [updR]
    · exact ih _ b j hjl hnd.2

theorem redOuter_ne {F0 F1 : Nat → Nat → ℤ} {Lj : List Nat} :
    ∀ (L : List Nat) (t : Bool → Nat → Nat → ℤ) (b : Bool) (i' j' : Nat), i' ∉ L →
      (L.foldl (fun t i =>
          Lj.foldl (fun t j => updR (updR t false i j (F0 i j)) true i j (F1 i j)) t) t)
        b i' j' = t b i' j' := by
  intro L
  induction L with
  | nil => intro t b i' j' _; rfl
  | cons a L ih =>
    intro t b i' j' hnm
    rw [List.mem_cons, not_or] at hnm
    rw [List.foldl_cons, ih _ _ _ _ hnm.2]
    exact redInner_ne Lj _ _ _ _ hnm.1

theorem redOuter_mem {F0 F1 : Nat → Nat → ℤ} {Lj : List Nat} (hLj : Lj.Nodup) :
    ∀ (L : List Nat) (t : Bool → Nat → Nat → ℤ) (b : Bool) (i j : Nat),
      i ∈ L → L.Nodup → j ∈ Lj →
      (L.foldl (fun t i =>
          Lj.foldl (fun t j => updR (updR t false i j (F0 i j)) true i j (F1 i j)) t) t)
        b i j = if b then F1 i j else F0 i j := by
  intro L
  induction L with
  | nil => intro t b i j h _ _; cases h
  | cons a L ih =>
    intro t b i j hi hnd hj
    rw [List.nodup_cons] at hnd
    rw [List.foldl_cons]
    rcases List.mem_cons.mp hi with rfl | hil
    · rw [redOuter_ne L _ b i j hnd.1]
      exact redInner_mem Lj _ b j hj hLj
    · exact ih _ b i j hil hnd.2 hj

theorem redOuter_nomem_j {F0 F1 : Nat → Nat → ℤ} {Lj : List Nat} :
    ∀ (L : List Nat) (t : Bool → Nat → Nat → ℤ) (b : Bool) (i' j' : Nat), j' ∉ Lj →
      (L.foldl (fun t i =>
          Lj.foldl (fun t j => updR (updR t false i j (F0 i j)) true i j (F1 i j)) t) t)
        b i' j' = t b i' j' := by
  intro L
  induction L with
  | nil => intro t b i' j' _; rfl
  | cons a L ih =>
    intro t b i' j' hnm
    rw [List.foldl_cons, ih _ _ _ _ hnm]
    exact redInner_notmem Lj _ _ _ _ hnm

theorem InitReductions_formula (t0 : Bool → Nat → Nat → ℤ) (b : Bool) {i j : Nat}
    (h1 : 1 ≤ i) (h2 : i < MAXDEPTH) (h3 : 1 ≤ j) (h4 : j < MAXDEPTH) :
    InitReductions_reductions t0 b i j = redFormula b i j := by
  unfold InitReductions_reductions
  have hmem_i : i ∈ List.range' 1 (MAXDEPTH - 1) := by
    rw [List.mem_range'_1]; omega
  have hmem_j : j ∈ List.range' 1 (MAXDEPTH - 1) := by
    rw [List.mem_range'_1]; omega
  rw [redOuter_mem (List.nodup_range' 1 (MAXDEPTH - 1)) _ _ b i j hmem_i
    (List.nodup_range' 1 (MAXDEPTH - 1)) hmem_j]
  cases b <;> rfl

theorem InitReductions_zero_zero (t0 : Bool → Nat → Nat → ℤ) (b : Bool) :
    InitReductions_reductions t0 b 0 0 = 0 := by
  unfold InitReductions_reductions
  have h0 : (0 : Nat) ∉ List.range' 1 (MAXDEPTH - 1) := by
    rw [List.mem_range'_1]; omega
  rw [redOuter_ne _ _ b 0 0 h0]
  cases b <;> simp [updR]

theorem InitReductions_row_zero (t0 : Bool → Nat → Nat → ℤ) (b : Bool) {j : Nat} (hj : 1 ≤ j) :
    InitReductions_reductions t0 b 0 j = t0 b 0 j := by
  unfold InitReductions_reductions
  have h0 : (0 : Nat) ∉ List.range' 1 (MAXDEPTH - 1) := by
    rw [List.mem_range'_1]; omega
  rw [redOuter_ne _ _ b 0 j h0]
  have hj0 : ¬j = 0 := by omega
  simp [updR, hj0]

theorem InitReductions_col_zero (t0 : Bool → Nat → Nat → ℤ) (b : Bool) {i : Nat} (hi : 1 ≤ i) :
    InitReductions_reductions t0 b i 0 = t0 b i 0 := by
  unfold InitReductions_reductions
  have h0 : (0 : Nat) ∉ List.range' 1 (MAXDEPTH - 1) := by
    rw [List.mem_range'_1]; omega
  rw [redOuter_nomem_j _ _ b i 0 h0]
  have hi0 : ¬i = 0 := by omega
  simp [updR, hi0]

theorem truncToZero_mono {x y : ℝ} (h : x ≤ y) : truncToZero x ≤ truncToZero y := by
  unfold truncToZero
  by_cases hx : 0 ≤ x <;> by_cases hy : 0 ≤ y
  · simp only [if_pos hx, if_pos hy]
    exact Int.floor_le_floor h
  · linarith
  · simp only [if_neg hx, if_pos hy]
    refine le_trans (Int.ceil_le.mpr ?_) (Int.floor_nonneg.mpr hy)
    rw [Int.cast_zero]
    linarith
  · simp only [if_neg hx, if_neg hy]
    exact Int.ceil_le.mpr (le_trans h (Int.le_ceil y))

theorem redFormula_le {i j : Nat} (h1 : 1 ≤ i) (h3 : 1 ≤ j) :
    redFormula false i j ≤ redFormula true i j := by
  unfold redFormula
  apply truncToZero_mono
  have hi : (1 : ℝ) ≤ (i : ℝ) := by exact_mod_cast h1
  have hj : (1 : ℝ) ≤ (j : ℝ) := by exact_mod_cast h3
  have hL : 0 ≤ Real.log i * Real.log j :=
    mul_nonneg (Real.log_nonneg hi) (Real.log_nonneg hj)
  have hdiv : Real.log i * Real.log j / 2.25 ≤ Real.log i * Real.log j / 2 := by
    apply div_le_div_of_nonneg_left hL
    · norm_num
    · norm_num
  linarith

theorem pvInner_pvLength (idx : Nat) :
    ∀ (L : List Nat) (pv : PvTable),
      (L.foldl (fun pv idx2 =>
        ⟨pv.pvLength, fun i j => if i = idx ∧ j = idx2 then NOMOVE else pv.pvArray i j⟩)
        pv).pvLength = pv.pvLength := by
  intro L
  induction L with
  | nil => intro pv; rfl
  | cons a L ih => intro pv; rw [List.foldl_cons, ih]

theorem pvInner_pvArray (idx : Nat) :
    ∀ (L : List Nat) (pv : PvTable) (i j : Nat),
      (L.foldl (fun pv idx2 =>
        ⟨pv.pvLength, fun i j => if i = idx ∧ j = idx2 then NOMOVE else pv.pvArray i j⟩)
        pv).pvArray i j = if i = idx ∧ j ∈ L then NOMOVE else pv.pvArray i j := by
  intro L
  induction L with
  | nil => intro pv i j; simp
  | cons a L ih =>
    intro pv i j
    rw [List.foldl_cons, ih]
    by_cases hi : i = idx <;> by_cases hja : j = a <;> by_cases hjL : j ∈ L <;>
      simp_all [List.mem_cons]

theorem clearPvRow_pvLength (pv : PvTable) (idx : Nat) :
    ∀ i, (clearPvRow pv idx).pvLength i = if i = idx then 0 else pv.pvLength i := by
  intro i
  unfold clearPvRow
  rw [pvInner_pvLength]

theorem clearPvRow_pvArray (pv : PvTable) (idx : Nat) :
    ∀ i j, (clearPvRow pv idx).pvArray i j =
      if i = idx ∧ j ∈ List.range (MAXDEPTH + 1) then NOMOVE else pv.pvArray i j := by
  intro i j
  unfold clearPvRow
  rw [pvInner_pvArray]

theorem pvOuter_pvLength :
    ∀ (L : List Nat) (pv : PvTable) (i : Nat),
      (L.foldl clearPvRow pv).pvLength i = if i ∈ L then 0 else pv.pvLength i := by
  intro L
  induction L with
  | nil => intro pv i; simp
  | cons a L ih =>
    intro pv i
    rw [List.foldl_cons, ih]
    by_cases hia : i = a <;> by_cases hiL : i ∈ L <;>
      simp_all [List.mem_cons, clearPvRow_pvLength]

theorem pvOuter_pvArray :
    ∀ (L : List Nat) (pv : PvTable) (i j : Nat),
      (L.foldl clearPvRow pv).pvArray i j =
        if i ∈ L ∧ j ∈ List.range (MAXDEPTH + 1) then NOMOVE else pv.pvArray i j := by
  intro L
  induction L with
  | nil => intro pv i j; simp
  | cons a L ih =>
    intro pv i j
    rw [List.foldl_cons, ih]
    by_cases hia : i = a <;> by_cases hiL : i ∈ L <;>
      by_cases hj : j ∈ List.range (MAXDEPTH + 1) <;>
      simp_all [List.mem_cons, clearPvRow_pvArray]

theorem getD_map_range {α : Type} (n : Nat) (f : Nat → α) (i : Nat) (d : α) (h : i < n) :
    ((List.range n).map f).getD i d = f i := by
  rw [List.getD_eq_getElem?_getD, List.getElem?_map, List.getElem?_range h]
  rfl

theorem GetRookAttacks_eq (h : rookMagicOk = true) {sq : Nat} (hsq : sq < 64) (occ : Nat) :
    GetRookAttacks sq occ = RookAttacksOnTheFly sq (occ &&& MaskRookAttacks sq) := by
  unfold GetRookAttacks
  exact rook_attacks_correct (rookCert_of_ok h hsq) (by rw [Nat.and_assoc, Nat.and_self])

theorem GetBishopAttacks_eq (h : bishopMagicOk = true) {sq : Nat} (hsq : sq < 64) (occ : Nat) :
    GetBishopAttacks sq occ = BishopAttacksOnTheFly sq (occ &&& MaskBishopAttacks sq) := by
  unfold GetBishopAttacks
  exact bishop_attacks_correct (bishopCert_of_ok h hsq) (by rw [Nat.and_assoc, Nat.and_self])

theorem SQUARES_BETWEEN_eq_OTF (hr : rookMagicOk = true) (hb : bishopMagicOk = true)
    {sq1 sq2 : Nat} (h1 : sq1 < 64) (h2 : sq2 < 64) :
    SQUARES_BETWEEN_BB sq1 sq2 = SQUARES_BETWEEN_OTF sq1 sq2 := by
  simp only [SQUARES_BETWEEN_BB, SQUARES_BETWEEN_OTF]
  split_ifs with hc1 hc2
  · rw [GetRookAttacks_eq hr h1, GetRookAttacks_eq hr h2]
  · rw [GetBishopAttacks_eq hb h1, GetBishopAttacks_eq hb h2]
  · rfl




theorem orFoldB_testBit (C : Nat → Bool) :
    ∀ (L : List Nat) (acc k : Nat),
      ((L.foldl (fun acc s => if C s then acc ||| (1 <<< s) else acc) acc).testBit k) =
        (acc.testBit k || (decide (k ∈ L) && C k)) := by
  intro L
  induction L with
  | nil => intro acc k; simp
  | cons a L ih =>
    intro acc k
    rw [List.foldl_cons, ih]
    by_cases hCa : C a
    · rw [if_pos hCa, Nat.testBit_or, Nat.shiftLeft_eq, Nat.one_mul, Nat.testBit_two_pow]
      by_cases hk : a = k
      · subst hk
        simp [List.mem_cons, hCa]
      · have hk' : ¬k = a := fun h => hk h.symm
        simp [List.mem_cons, hk, hk']
    · rw [if_neg hCa, Bool.not_eq_true] at *
      by_cases hk : k = a
      · subst hk
        simp [List.mem_cons, hCa]
      · simp [List.mem_cons, hk]

theorem orFoldP_testBit (C : Nat → Prop) [DecidablePred C] :
    ∀ (L : List Nat) (acc k : Nat),
      ((L.foldl (fun acc s => if C s then acc ||| (1 <<< s) else acc) acc).testBit k) =
        (acc.testBit k || (decide (k ∈ L) && decide (C k))) := by
  intro L acc k
  rw [List.foldl_ext (g := fun acc s => if decide (C s) then acc ||| (1 <<< s) else acc)]
  · exact orFoldB_testBit (fun s => decide (C s)) L acc k
  · intro acc b _
    by_cases hC : C b <;> simp [hC]

theorem strictlyBetweenB_iff (sq1 sq2 s : Nat) :
    strictlyBetweenB sq1 sq2 s = true ↔ strictlyBetween sq1 sq2 s := by
  simp [strictlyBetweenB, strictlyBetween, Nat.blt_eq, and_assoc, or_assoc]

theorem strictlyBetween_bounds {sq1 sq2 s : Nat} (h1 : sq1 < 64) (h2 : sq2 < 64)
    (h : strictlyBetween sq1 sq2 s) :
    min sq1 sq2 < s ∧ s < max sq1 sq2 ∧ s < 64 := by
  simp only [strictlyBetween] at h
  rcases h with h | h | h | h <;> omega

theorem strictlyBetween_aligned {sq1 sq2 s : Nat} (h : strictlyBetween sq1 sq2 s) :
    alignedB sq1 sq2 = true := by
  simp only [strictlyBetween] at h
  simp only [alignedB, Bool.or_eq_true, beq_iff_eq]
  rcases h with h | h | h | h <;> omega

theorem betweenSpecFast_eq {sq1 sq2 : Nat} (h1 : sq1 < 64) (h2 : sq2 < 64) :
    betweenSpecFast sq1 sq2 = betweenSpecBB sq1 sq2 := by
  apply Nat.eq_of_testBit_eq
  intro k
  rw [betweenSpecFast, betweenSpecBB, orFoldP_testBit]
  by_cases hal : alignedB sq1 sq2 = true
  · rw [if_pos hal, orFoldB_testBit]
    by_cases hsb : strictlyBetween sq1 sq2 k
    · have hb := strictlyBetween_bounds h1 h2 hsb
      have hmem : k ∈ List.range' (min sq1 sq2 + 1) (max sq1 sq2 - min sq1 sq2 - 1) := by
        rw [List.mem_range'_1]; omega
      have hmem64 : k ∈ List.range 64 := List.mem_range.mpr hb.2.2
      simp [hmem, hmem64, hsb, (strictlyBetweenB_iff sq1 sq2 k).mpr hsb]
    · have hnb : strictlyBetweenB sq1 sq2 k = false := by
        rw [← Bool.not_eq_true, strictlyBetweenB_iff]
        exact hsb
      simp [hsb, hnb]
  · rw [if_neg hal]
    by_cases hsb : strictlyBetween sq1 sq2 k
    · exact absurd (strictlyBetween_aligned hsb) hal
    · simp [hsb]

/-- C4 counterexample: the claim says the table holds one en-passant key per
file (eight keys, indexed by file), but `initHashKeys` fills
`enpassant_keys[64]` with one key per square: the table has 64 entries, not
eight. -/
theorem C4_counterexample :
    (initHashKeys (fun i => i)).enpassant_keys.length = 64 ∧ (64 : Nat) ≠ 8 := by
  constructor
  · simp [initHashKeys]
  · decide

/-- C4 (amended): the Zobrist key tables built by `initHashKeys` contain one
random key per (pieceType, square) pair (12 types times 64 squares), one key
per en-passant square (64 keys, indexed by square), one key per castling-rights
bitmask 0..15, and a single side-to-move key, drawn in that order from the
pseudo-random stream. -/
theorem C4_zobrist_tables (rng : Nat → Nat) (t s i : Nat)
    (ht : t < 12) (hs : s < 64) (hi : i < 16) :
    (initHashKeys rng).PieceKeys.length = 12 ∧
    ((initHashKeys rng).PieceKeys.getD t []).length = 64 ∧
    ((initHashKeys rng).PieceKeys.getD t []).getD s 0 = rng (64 * t + s) ∧
    (initHashKeys rng).enpassant_keys.length = 64 ∧
    (initHashKeys rng).enpassant_keys.getD s 0 = rng (768 + s) ∧
    (initHashKeys rng).CastleKeys.length = 16 ∧
    (initHashKeys rng).CastleKeys.getD i 0 = rng (832 + i) ∧
    (initHashKeys rng).SideKey = rng 848 := by
  refine ⟨by simp [initHashKeys], ?_, ?_, by simp [initHashKeys],
    by rw [show (initHashKeys rng).enpassant_keys = (List.range 64).map
        (fun s => rng (768 + s)) from rfl, getD_map_range _ _ _ _ hs],
    by simp [initHashKeys],
    by rw [show (initHashKeys rng).CastleKeys = (List.range 16).map
        (fun i => rng (832 + i)) from rfl, getD_map_range _ _ _ _ hi], rfl⟩
  · rw [show (initHashKeys rng).PieceKeys = (List.range 12).map
      (fun t => (List.range 64).map fun s => rng (64 * t + s)) from rfl,
      getD_map_range _ _ _ _ ht]
    simp
  · rw [show (initHashKeys rng).PieceKeys = (List.range 12).map
      (fun t => (List.range 64).map fun s => rng (64 * t + s)) from rfl,
      getD_map_range _ _ _ _ ht, getD_map_range _ _ _ _ hs]

/-- C4 witness at a concrete stream and concrete indices. -/
theorem C4_zobrist_tables_witness :
    (0 : Nat) < 12 ∧ (1 : Nat) < 64 ∧ (2 : Nat) < 16 ∧
    ((initHashKeys (fun i => i)).PieceKeys.length = 12 ∧
    ((initHashKeys (fun i => i)).PieceKeys.getD 0 []).length = 64 ∧
    ((initHashKeys (fun i => i)).PieceKeys.getD 0 []).getD 1 0 = (fun i => i) (64 * 0 + 1) ∧
    (initHashKeys (fun i => i)).enpassant_keys.length = 64 ∧
    (initHashKeys (fun i => i)).enpassant_keys.getD 1 0 = (fun i => i) (768 + 1) ∧
    (initHashKeys (fun i => i)).CastleKeys.length = 16 ∧
    (initHashKeys (fun i => i)).CastleKeys.getD 2 0 = (fun i => i) (832 + 2) ∧
    (initHashKeys (fun i => i)).SideKey = (fun i => i) 848) :=
  ⟨by decide, by decide, by decide,
   C4_zobrist_tables (fun i => i) 0 1 2 (by decide) (by decide) (by decide)⟩

/-- C5: for every depth and move index at least 1 and below MAXDEPTH, the two
`reductions` tables built by `InitReductions` hold the truncated values of
`-0.25 + log(i) * log(j) / 2.25` and `1.00 + log(i) * log(j) / 2.00`
respectively, and the second table's entry is at least the first's. -/
theorem C5_reduction_tables (t0 : Bool → Nat → Nat → ℤ) (i j : Nat)
    (h1 : 1 ≤ i) (h2 : i < MAXDEPTH) (h3 : 1 ≤ j) (h4 : j < MAXDEPTH) :
    InitReductions_reductions t0 false i j =
      truncToZero (-0.25 + Real.log i * Real.log j / 2.25) ∧
    InitReductions_reductions t0 true i j =
      truncToZero (1 + Real.log i * Real.log j / 2) ∧
    InitReductions_reductions t0 false i j ≤ InitReductions_reductions t0 true i j := by
  have hf := InitReductions_formula t0 false h1 h2 h3 h4
  have ht := InitReductions_formula t0 true h1 h2 h3 h4
  refine ⟨by rw [hf]; rfl, by rw [ht]; rfl, ?_⟩
  rw [hf, ht]
  exact redFormula_le h1 h3

/-- C5 witness at depth 1, move index 1 and the zero start table. -/
theorem C5_reduction_tables_witness :
    (1 : Nat) ≤ 1 ∧ (1 : Nat) < MAXDEPTH ∧
    (InitReductions_reductions (fun _ _ _ => 0) false 1 1 =
      truncToZero (-0.25 + Real.log (1 : Nat) * Real.log (1 : Nat) / 2.25) ∧
    InitReductions_reductions (fun _ _ _ => 0) true 1 1 =
      truncToZero (1 + Real.log (1 : Nat) * Real.log (1 : Nat) / 2) ∧
    InitReductions_reductions (fun _ _ _ => 0) false 1 1 ≤
      InitReductions_reductions (fun _ _ _ => 0) true 1 1) :=
  ⟨le_refl 1, by decide,
   C5_reduction_tables (fun _ _ _ => 0) 1 1 (le_refl 1) (by decide) (le_refl 1) (by decide)⟩

/-- C6: the late-move-pruning margins grow quadratically with depth:
`lmp_margin[d][0]` is the integer truncation of `1.5 + 0.5 * d ^ 2` and
`lmp_margin[d][1]` the integer truncation of `3.0 + 1.0 * d ^ 2`, and the
improving margin is strictly greater than the not-improving one at every
depth below MAXDEPTH. -/
theorem C6_lmp_margins (d : Nat) (hd : d < MAXDEPTH) :
    lmp_margin d false = truncQ (3 / 2 + 1 / 2 * (d : ℚ) ^ 2) ∧
    lmp_margin d true = truncQ (3 + 1 * (d : ℚ) ^ 2) ∧
    lmp_margin d false < lmp_margin d true := by
  refine ⟨rfl, rfl, ?_⟩
  have hpos1 : (0 : ℚ) ≤ 3 / 2 + 1 / 2 * (d : ℚ) ^ 2 := by positivity
  have hpos2 : (0 : ℚ) ≤ 3 + 1 * (d : ℚ) ^ 2 := by positivity
  have e1 : lmp_margin d false = truncQ (3 / 2 + 1 / 2 * (d : ℚ) ^ 2) := rfl
  have e2 : lmp_margin d true = truncQ (3 + 1 * (d : ℚ) ^ 2) := rfl
  rw [e1, e2]
  unfold truncQ
  rw [if_pos hpos1, if_pos hpos2]
  have hcast : (3 + 1 * (d : ℚ) ^ 2) = ((3 + (d : ℤ) ^ 2 : ℤ) : ℚ) := by push_cast; ring
  rw [hcast, Int.floor_intCast, Int.floor_lt]
  push_cast
  nlinarith [sq_nonneg ((d : ℚ))]

/-- C6 witness at depth 0. -/
theorem C6_lmp_margins_witness :
    (0 : Nat) < MAXDEPTH ∧
    (lmp_margin 0 false = truncQ (3 / 2 + 1 / 2 * ((0 : Nat) : ℚ) ^ 2) ∧
    lmp_margin 0 true = truncQ (3 + 1 * ((0 : Nat) : ℚ) ^ 2) ∧
    lmp_margin 0 false < lmp_margin 0 true) :=
  ⟨by decide, C6_lmp_margins 0 (by decide)⟩

/-- C7: the static-exchange-pruning margins built by `InitReductions` are
`see_margin[d][1] = -80 * d` for quiet moves and `see_margin[d][0] =
-30 * d * d` for non-quiet moves; both are zero at depth 0, non-positive
everywhere, and non-increasing in depth. -/
theorem C7_see_margins (d d2 : Nat) (hd : d < MAXDEPTH) (hd2 : d2 < MAXDEPTH) (hle : d ≤ d2) :
    see_margin d true = -80 * (d : ℤ) ∧
    see_margin d false = -30 * (d : ℤ) * (d : ℤ) ∧
    see_margin 0 true = 0 ∧ see_margin 0 false = 0 ∧
    see_margin d true ≤ 0 ∧ see_margin d false ≤ 0 ∧
    see_margin d2 true ≤ see_margin d true ∧ see_margin d2 false ≤ see_margin d false := by
  have hc : (d : ℤ) ≤ (d2 : ℤ) := by exact_mod_cast hle
  have h0 : (0 : ℤ) ≤ (d : ℤ) := Int.ofNat_nonneg d
  have h02 : (0 : ℤ) ≤ (d2 : ℤ) := Int.ofNat_nonneg d2
  have ht : ∀ x : Nat, see_margin x true = -80 * (x : ℤ) := fun x => by simp [see_margin]
  have hf : ∀ x : Nat, see_margin x false = -30 * (x : ℤ) * (x : ℤ) := fun x => by
    simp [see_margin]
  refine ⟨ht d, hf d, by simp [ht 0], by simp [hf 0], ?_, ?_, ?_, ?_⟩
  · rw [ht d]; nlinarith
  · rw [hf d]; nlinarith
  · rw [ht d, ht d2]; nlinarith
  · rw [hf d, hf d2]; nlinarith

/-- C7 witness at depths 0 and 1. -/
theorem C7_see_margins_witness :
    (0 : Nat) < MAXDEPTH ∧ (1 : Nat) < MAXDEPTH ∧ (0 : Nat) ≤ 1 ∧
    (see_margin 0 true = -80 * ((0 : Nat) : ℤ) ∧
    see_margin 0 false = -30 * ((0 : Nat) : ℤ) * ((0 : Nat) : ℤ) ∧
    see_margin 0 true = 0 ∧ see_margin 0 false = 0 ∧
    see_margin 0 true ≤ 0 ∧ see_margin 0 false ≤ 0 ∧
    see_margin 1 true ≤ see_margin 0 true ∧ see_margin 1 false ≤ see_margin 0 false) :=
  ⟨by decide, by decide, by decide, C7_see_margins 0 1 (by decide) (by decide) (by decide)⟩

/-- C8: after `InitNewGame` the worker state is cleared: every in-range PV
length is 0 and every in-range PV move is NOMOVE, the counter-move table holds
NOMOVE everywhere, the node, selective-depth and stop counters are 0, the
played-position history is empty, and the transposition table holds no
entries. -/
theorem C8_new_game_clears (now : Nat) (st : EngineState) (i j : Nat)
    (hi : i ≤ MAXDEPTH) (hj : j ≤ MAXDEPTH) :
    (InitNewGame now st).td.pvTable.pvLength i = 0 ∧
    (InitNewGame now st).td.pvTable.pvArray i j = NOMOVE ∧
    (∀ a b, (InitNewGame now st).td.sd.counterMoves a b = NOMOVE) ∧
    (InitNewGame now st).td.info.nodes = 0 ∧
    (InitNewGame now st).td.info.seldepth = 0 ∧
    (InitNewGame now st).td.info.stopped = 0 ∧
    (InitNewGame now st).td.pos.played_positions = [] ∧
    (InitNewGame now st).tt.entries = [] := by
  have hmi : i ∈ List.range (MAXDEPTH + 1) := List.mem_range.mpr (by omega)
  have hmj : j ∈ List.range (MAXDEPTH + 1) := List.mem_range.mpr (by omega)
  refine ⟨?_, ?_, fun a b => rfl, rfl, rfl, rfl, rfl, rfl⟩
  · show ((List.range (MAXDEPTH + 1)).foldl clearPvRow st.td.pvTable).pvLength i = 0
    rw [pvOuter_pvLength]
    simp [hmi]
  · show ((List.range (MAXDEPTH + 1)).foldl clearPvRow st.td.pvTable).pvArray i j = NOMOVE
    rw [pvOuter_pvArray]
    simp [hmi, hmj]

/-- C8 witness at a concrete state and indices. -/
theorem C8_new_game_clears_witness :
    (0 : Nat) ≤ MAXDEPTH ∧ (1 : Nat) ≤ MAXDEPTH ∧
    ((InitNewGame 7 dummyState).td.pvTable.pvLength 0 = 0 ∧
    (InitNewGame 7 dummyState).td.pvTable.pvArray 0 1 = NOMOVE ∧
    (∀ a b, (InitNewGame 7 dummyState).td.sd.counterMoves a b = NOMOVE) ∧
    (InitNewGame 7 dummyState).td.info.nodes = 0 ∧
    (InitNewGame 7 dummyState).td.info.seldepth = 0 ∧
    (InitNewGame 7 dummyState).td.info.stopped = 0 ∧
    (InitNewGame 7 dummyState).td.pos.played_positions = [] ∧
    (InitNewGame 7 dummyState).tt.entries = []) :=
  ⟨by decide, by decide, C8_new_game_clears 7 dummyState 0 1 (by decide) (by decide)⟩

/-- C9: `InitReductions` writes `reductions[b][0][0] = 0`, and entries with
exactly one zero index are never written: for any prior table contents they
keep their value, in particular the value 0 left by the static zero
initialization of the global array. -/
theorem C9_reductions_edge (t0 : Bool → Nat → Nat → ℤ) (b : Bool) (i j : Nat)
    (hi : 1 ≤ i) (hj : 1 ≤ j) :
    InitReductions_reductions t0 b 0 0 = 0 ∧
    InitReductions_reductions t0 b 0 j = t0 b 0 j ∧
    InitReductions_reductions t0 b i 0 = t0 b i 0 ∧
    InitReductions_reductions (fun _ _ _ => 0) b 0 j = 0 ∧
    InitReductions_reductions (fun _ _ _ => 0) b i 0 = 0 :=
  ⟨InitReductions_zero_zero t0 b, InitReductions_row_zero t0 b hj,
   InitReductions_col_zero t0 b hi, InitReductions_row_zero (fun _ _ _ => 0) b hj,
   InitReductions_col_zero (fun _ _ _ => 0) b hi⟩

/-- C9 witness at concrete indices and a concrete nonzero start table. -/
theorem C9_reductions_edge_witness :
    (1 : Nat) ≤ 1 ∧ (1 : Nat) ≤ 2 ∧
    (InitReductions_reductions (fun _ _ _ => 5) true 0 0 = 0 ∧
    InitReductions_reductions (fun _ _ _ => 5) true 0 2 = (fun _ _ _ => (5 : ℤ)) true 0 2 ∧
    InitReductions_reductions (fun _ _ _ => 5) true 1 0 = (fun _ _ _ => (5 : ℤ)) true 1 0 ∧
    InitReductions_reductions (fun _ _ _ => 0) true 0 2 = 0 ∧
    InitReductions_reductions (fun _ _ _ => 0) true 1 0 = 0) :=
  ⟨by decide, by decide, C9_reductions_edge (fun _ _ _ => 5) true 1 2 (by decide) (by decide)⟩

/-- C10: for every prior worker state, `InitNewGame` clears the played-position
history and parses the standard starting position, so the worker's root
position afterwards is startpos with an empty history, whatever was searched
before. -/
theorem C10_new_game_startpos (now : Nat) (st : EngineState) :
    (InitNewGame now st).td.pos =
      { bitboards := [65280, 66, 36, 129, 8, 16, 71776119061217280, 4755801206503243776,
          2594073385365405696, 9295429630892703744, 576460752303423488, 1152921504606846976],
        side := 0, castleRights := 15, enPas := 64, fiftyMove := 0,
        played_positions := [] } := rfl

/-- The first 64 naturals, used to decompose the exhaustive certificates
square by square. -/
theorem range64_eq : List.range 64 = [0, 1, 2, 3, 4, 5, 6, 7, 8, 9, 10, 11, 12, 13, 14, 15, 16, 17, 18, 19, 20, 21, 22, 23, 24, 25, 26, 27, 28, 29, 30, 31, 32, 33, 34, 35, 36, 37, 38, 39, 40, 41, 42, 43, 44, 45, 46, 47, 48, 49, 50, 51, 52, 53, 54, 55, 56, 57, 58, 59, 60, 61, 62, 63] := rfl

section ExhaustiveChecks

set_option maxRecDepth 100000
set_option maxHeartbeats 1000000000

/-- Collision-freeness of the supplied bishop magic constant on square 0. -/
theorem bishopSqOk_0 : bishopSqOk 0 = true := by decide

/-- Collision-freeness of the supplied bishop magic constant on square 1. -/
theorem bishopSqOk_1 : bishopSqOk 1 = true := by decide

/-- Collision-freeness of the supplied bishop magic constant on square 2. -/
theorem bishopSqOk_2 : bishopSqOk 2 = true := by decide

/-- Collision-freeness of the supplied bishop magic constant on square 3. -/
theorem bishopSqOk_3 : bishopSqOk 3 = true := by decide

/-- Collision-freeness of the supplied bishop magic constant on square 4. -/
theorem bishopSqOk_4 : bishopSqOk 4 = true := by decide

/-- Collision-freeness of the supplied bishop magic constant on square 5. -/
theorem bishopSqOk_5 : bishopSqOk 5 = true := by decide

/-- Collision-freeness of the supplied bishop magic constant on square 6. -/
theorem bishopSqOk_6 : bishopSqOk 6 = true := by decide

/-- Collision-freeness of the supplied bishop magic constant on square 7. -/
theorem bishopSqOk_7 : bishopSqOk 7 = true := by decide

/-- Collision-freeness of the supplied bishop magic constant on square 8. -/
theorem bishopSqOk_8 : bishopSqOk 8 = true := by decide

/-- Collision-freeness of the supplied bishop magic constant on square 9. -/
theorem bishopSqOk_9 : bishopSqOk 9 = true := by decide

/-- Collision-freeness of the supplied bishop magic constant on square 10. -/
theorem bishopSqOk_10 : bishopSqOk 10 = true := by decide

/-- Collision-freeness of the supplied bishop magic constant on square 11. -/
theorem bishopSqOk_11 : bishopSqOk 11 = true := by decide

/-- Collision-freeness of the supplied bishop magic constant on square 12. -/
theorem bishopSqOk_12 : bishopSqOk 12 = true := by decide

/-- Collision-freeness of the supplied bishop magic constant on square 13. -/
theorem bishopSqOk_13 : bishopSqOk 13 = true := by decide

/-- Collision-freeness of the supplied bishop magic constant on square 14. -/
theorem bishopSqOk_14 : bishopSqOk 14 = true := by decide

/-- Collision-freeness of the supplied bishop magic constant on square 15. -/
theorem bishopSqOk_15 : bishopSqOk 15 = true := by decide

/-- Collision-freeness of the supplied bishop magic constant on square 16. -/
theorem bishopSqOk_16 : bishopSqOk 16 = true := by decide

/-- Collision-freeness of the supplied bishop magic constant on square 17. -/
theorem bishopSqOk_17 : bishopSqOk 17 = true := by decide

/-- Collision-freeness of the supplied bishop magic constant on square 18. -/
theorem bishopSqOk_18 : bishopSqOk 18 = true := by decide

/-- Collision-freeness of the supplied bishop magic constant on square 19. -/
theorem bishopSqOk_19 : bishopSqOk 19 = true := by decide

/-- Collision-freeness of the supplied bishop magic constant on square 20. -/
theorem bishopSqOk_20 : bishopSqOk 20 = true := by decide

/-- Collision-freeness of the supplied bishop magic constant on square 21. -/
theorem bishopSqOk_21 : bishopSqOk 21 = true := by decide

/-- Collision-freeness of the supplied bishop magic constant on square 22. -/
theorem bishopSqOk_22 : bishopSqOk 22 = true := by decide

/-- Collision-freeness of the supplied bishop magic constant on square 23. -/
theorem bishopSqOk_23 : bishopSqOk 23 = true := by decide

/-- Collision-freeness of the supplied bishop magic constant on square 24. -/
theorem bishopSqOk_24 : bishopSqOk 24 = true := by decide

/-- Collision-freeness of the supplied bishop magic constant on square 25. -/
theorem bishopSqOk_25 : bishopSqOk 25 = true := by decide

/-- Collision-freeness of the supplied bishop magic constant on square 26. -/
theorem bishopSqOk_26 : bishopSqOk 26 = true := by decide

/-- Collision-freeness of the supplied bishop magic constant on square 27. -/
theorem bishopSqOk_27 : bishopSqOk 27 = true := by decide

/-- Collision-freeness of the supplied bishop magic constant on square 28. -/
theorem bishopSqOk_28 : bishopSqOk 28 = true := by decide

/-- Collision-freeness of the supplied bishop magic constant on square 29. -/
theorem bishopSqOk_29 : bishopSqOk 29 = true := by decide

/-- Collision-freeness of the supplied bishop magic constant on square 30. -/
theorem bishopSqOk_30 : bishopSqOk 30 = true := by decide

/-- Collision-freeness of the supplied bishop magic constant on square 31. -/
theorem bishopSqOk_31 : bishopSqOk 31 = true := by decide

/-- Collision-freeness of the supplied bishop magic constant on square 32. -/
theorem bishopSqOk_32 : bishopSqOk 32 = true := by decide

/-- Collision-freeness of the supplied bishop magic constant on square 33. -/
theorem bishopSqOk_33 : bishopSqOk 33 = true := by decide

/-- Collision-freeness of the supplied bishop magic constant on square 34. -/
theorem bishopSqOk_34 : bishopSqOk 34 = true := by decide

/-- Collision-freeness of the supplied bishop magic constant on square 35. -/
theorem bishopSqOk_35 : bishopSqOk 35 = true := by decide

/-- Collision-freeness of the supplied bishop magic constant on square 36. -/
theorem bishopSqOk_36 : bishopSqOk 36 = true := by decide

/-- Collision-freeness of the supplied bishop magic constant on square 37. -/
theorem bishopSqOk_37 : bishopSqOk 37 = true := by decide

/-- Collision-freeness of the supplied bishop magic constant on square 38. -/
theorem bishopSqOk_38 : bishopSqOk 38 = true := by decide

/-- Collision-freeness of the supplied bishop magic constant on square 39. -/
theorem bishopSqOk_39 : bishopSqOk 39 = true := by decide

/-- Collision-freeness of the supplied bishop magic constant on square 40. -/
theorem bishopSqOk_40 : bishopSqOk 40 = true := by decide

/-- Collision-freeness of the supplied bishop magic constant on square 41. -/
theorem bishopSqOk_41 : bishopSqOk 41 = true := by decide

/-- Collision-freeness of the supplied bishop magic constant on square 42. -/
theorem bishopSqOk_42 : bishopSqOk 42 = true := by decide

/-- Collision-freeness of the supplied bishop magic constant on square 43. -/
theorem bishopSqOk_43 : bishopSqOk 43 = true := by decide

/-- Collision-freeness of the supplied bishop magic constant on square 44. -/
theorem bishopSqOk_44 : bishopSqOk 44 = true := by decide

/-- Collision-freeness of the supplied bishop magic constant on square 45. -/
theorem bishopSqOk_45 : bishopSqOk 45 = true := by decide

/-- Collision-freeness of the supplied bishop magic constant on square 46. -/
theorem bishopSqOk_46 : bishopSqOk 46 = true := by decide

/-- Collision-freeness of the supplied bishop magic constant on square 47. -/
theorem bishopSqOk_47 : bishopSqOk 47 = true := by decide

/-- Collision-freeness of the supplied bishop magic constant on square 48. -/
theorem bishopSqOk_48 : bishopSqOk 48 = true := by decide

/-- Collision-freeness of the supplied bishop magic constant on square 49. -/
theorem bishopSqOk_49 : bishopSqOk 49 = true := by decide

/-- Collision-freeness of the supplied bishop magic constant on square 50. -/
theorem bishopSqOk_50 : bishopSqOk 50 = true := by decide

/-- Collision-freeness of the supplied bishop magic constant on square 51. -/
theorem bishopSqOk_51 : bishopSqOk 51 = true := by decide

/-- Collision-freeness of the supplied bishop magic constant on square 52. -/
theorem bishopSqOk_52 : bishopSqOk 52 = true := by decide

/-- Collision-freeness of the supplied bishop magic constant on square 53. -/
theorem bishopSqOk_53 : bishopSqOk 53 = true := by decide

/-- Collision-freeness of the supplied bishop magic constant on square 54. -/
theorem bishopSqOk_54 : bishopSqOk 54 = true := by decide

/-- Collision-freeness of the supplied bishop magic constant on square 55. -/
theorem bishopSqOk_55 : bishopSqOk 55 = true := by decide

/-- Collision-freeness of the supplied bishop magic constant on square 56. -/
theorem bishopSqOk_56 : bishopSqOk 56 = true := by decide

/-- Collision-freeness of the supplied bishop magic constant on square 57. -/
theorem bishopSqOk_57 : bishopSqOk 57 = true := by decide

/-- Collision-freeness of the supplied bishop magic constant on square 58. -/
theorem bishopSqOk_58 : bishopSqOk 58 = true := by decide

/-- Collision-freeness of the supplied bishop magic constant on square 59. -/
theorem bishopSqOk_59 : bishopSqOk 59 = true := by decide

/-- Collision-freeness of the supplied bishop magic constant on square 60. -/
theorem bishopSqOk_60 : bishopSqOk 60 = true := by decide

/-- Collision-freeness of the supplied bishop magic constant on square 61. -/
theorem bishopSqOk_61 : bishopSqOk 61 = true := by decide

/-- Collision-freeness of the supplied bishop magic constant on square 62. -/
theorem bishopSqOk_62 : bishopSqOk 62 = true := by decide

/-- Collision-freeness of the supplied bishop magic constant on square 63. -/
theorem bishopSqOk_63 : bishopSqOk 63 = true := by decide

/-- Collision-freeness of the supplied rook magic constant on square 0. -/
theorem rookSqOk_0 : rookSqOk 0 = true := by decide

/-- Collision-freeness of the supplied rook magic constant on square 1. -/
theorem rookSqOk_1 : rookSqOk 1 = true := by decide

/-- Collision-freeness of the supplied rook magic constant on square 2. -/
theorem rookSqOk_2 : rookSqOk 2 = true := by decide

/-- Collision-freeness of the supplied rook magic constant on square 3. -/
theorem rookSqOk_3 : rookSqOk 3 = true := by decide

/-- Collision-freeness of the supplied rook magic constant on square 4. -/
theorem rookSqOk_4 : rookSqOk 4 = true := by decide

/-- Collision-freeness of the supplied rook magic constant on square 5. -/
theorem rookSqOk_5 : rookSqOk 5 = true := by decide

/-- Collision-freeness of the supplied rook magic constant on square 6. -/
theorem rookSqOk_6 : rookSqOk 6 = true := by decide

/-- Collision-freeness of the supplied rook magic constant on square 7. -/
theorem rookSqOk_7 : rookSqOk 7 = true := by decide

/-- Collision-freeness of the supplied rook magic constant on square 8. -/
theorem rookSqOk_8 : rookSqOk 8 = true := by decide

/-- Collision-freeness of the supplied rook magic constant on square 9. -/
theorem rookSqOk_9 : rookSqOk 9 = true := by decide

/-- Collision-freeness of the supplied rook magic constant on square 10. -/
theorem rookSqOk_10 : rookSqOk 10 = true := by decide

/-- Collision-freeness of the supplied rook magic constant on square 11. -/
theorem rookSqOk_11 : rookSqOk 11 = true := by decide

/-- Collision-freeness of the supplied rook magic constant on square 12. -/
theorem rookSqOk_12 : rookSqOk 12 = true := by decide

/-- Collision-freeness of the supplied rook magic constant on square 13. -/
theorem rookSqOk_13 : rookSqOk 13 = true := by decide

/-- Collision-freeness of the supplied rook magic constant on square 14. -/
theorem rookSqOk_14 : rookSqOk 14 = true := by decide

/-- Collision-freeness of the supplied rook magic constant on square 15. -/
theorem rookSqOk_15 : rookSqOk 15 = true := by decide

/-- Collision-freeness of the supplied rook magic constant on square 16. -/
theorem rookSqOk_16 : rookSqOk 16 = true := by decide

/-- Collision-freeness of the supplied rook magic constant on square 17. -/
theorem rookSqOk_17 : rookSqOk 17 = true := by decide

/-- Collision-freeness of the supplied rook magic constant on square 18. -/
theorem rookSqOk_18 : rookSqOk 18 = true := by decide

/-- Collision-freeness of the supplied rook magic constant on square 19. -/
theorem rookSqOk_19 : rookSqOk 19 = true := by decide

/-- Collision-freeness of the supplied rook magic constant on square 20. -/
theorem rookSqOk_20 : rookSqOk 20 = true := by decide

/-- Collision-freeness of the supplied rook magic constant on square 21. -/
theorem rookSqOk_21 : rookSqOk 21 = true := by decide

/-- Collision-freeness of the supplied rook magic constant on square 22. -/
theorem rookSqOk_22 : rookSqOk 22 = true := by decide

/-- Collision-freeness of the supplied rook magic constant on square 23. -/
theorem rookSqOk_23 : rookSqOk 23 = true := by decide

/-- Collision-freeness of the supplied rook magic constant on square 24. -/
theorem rookSqOk_24 : rookSqOk 24 = true := by decide

/-- Collision-freeness of the supplied rook magic constant on square 25. -/
theorem rookSqOk_25 : rookSqOk 25 = true := by decide

/-- Collision-freeness of the supplied rook magic constant on square 26. -/
theorem rookSqOk_26 : rookSqOk 26 = true := by decide

/-- Collision-freeness of the supplied rook magic constant on square 27. -/
theorem rookSqOk_27 : rookSqOk 27 = true := by decide

/-- Collision-freeness of the supplied rook magic constant on square 28. -/
theorem rookSqOk_28 : rookSqOk 28 = true := by decide

/-- Collision-freeness of the supplied rook magic constant on square 29. -/
theorem rookSqOk_29 : rookSqOk 29 = true := by decide

/-- Collision-freeness of the supplied rook magic constant on square 30. -/
theorem rookSqOk_30 : rookSqOk 30 = true := by decide

/-- Collision-freeness of the supplied rook magic constant on square 31. -/
theorem rookSqOk_31 : rookSqOk 31 = true := by decide

/-- Collision-freeness of the supplied rook magic constant on square 32. -/
theorem rookSqOk_32 : rookSqOk 32 = true := by decide

/-- Collision-freeness of the supplied rook magic constant on square 33. -/
theorem rookSqOk_33 : rookSqOk 33 = true := by decide

/-- Collision-freeness of the supplied rook magic constant on square 34. -/
theorem rookSqOk_34 : rookSqOk 34 = true := by decide

/-- Collision-freeness of the supplied rook magic constant on square 35. -/
theorem rookSqOk_35 : rookSqOk 35 = true := by decide

/-- Collision-freeness of the supplied rook magic constant on square 36. -/
theorem rookSqOk_36 : rookSqOk 36 = true := by decide

/-- Collision-freeness of the supplied rook magic constant on square 37. -/
theorem rookSqOk_37 : rookSqOk 37 = true := by decide

/-- Collision-freeness of the supplied rook magic constant on square 38. -/
theorem rookSqOk_38 : rookSqOk 38 = true := by decide

/-- Collision-freeness of the supplied rook magic constant on square 39. -/
theorem rookSqOk_39 : rookSqOk 39 = true := by decide

/-- Collision-freeness of the supplied rook magic constant on square 40. -/
theorem rookSqOk_40 : rookSqOk 40 = true := by decide

/-- Collision-freeness of the supplied rook magic constant on square 41. -/
theorem rookSqOk_41 : rookSqOk 41 = true := by decide

/-- Collision-freeness of the supplied rook magic constant on square 42. -/
theorem rookSqOk_42 : rookSqOk 42 = true := by decide

/-- Collision-freeness of the supplied rook magic constant on square 43. -/
theorem rookSqOk_43 : rookSqOk 43 = true := by decide

/-- Collision-freeness of the supplied rook magic constant on square 44. -/
theorem rookSqOk_44 : rookSqOk 44 = true := by decide

/-- Collision-freeness of the supplied rook magic constant on square 45. -/
theorem rookSqOk_45 : rookSqOk 45 = true := by decide

/-- Collision-freeness of the supplied rook magic constant on square 46. -/
theorem rookSqOk_46 : rookSqOk 46 = true := by decide

/-- Collision-freeness of the supplied rook magic constant on square 47. -/
theorem rookSqOk_47 : rookSqOk 47 = true := by decide

/-- Collision-freeness of the supplied rook magic constant on square 48. -/
theorem rookSqOk_48 : rookSqOk 48 = true := by decide

/-- Collision-freeness of the supplied rook magic constant on square 49. -/
theorem rookSqOk_49 : rookSqOk 49 = true := by decide

/-- Collision-freeness of the supplied rook magic constant on square 50. -/
theorem rookSqOk_50 : rookSqOk 50 = true := by decide

/-- Collision-freeness of the supplied rook magic constant on square 51. -/
theorem rookSqOk_51 : rookSqOk 51 = true := by decide

/-- Collision-freeness of the supplied rook magic constant on square 52. -/
theorem rookSqOk_52 : rookSqOk 52 = true := by decide

/-- Collision-freeness of the supplied rook magic constant on square 53. -/
theorem rookSqOk_53 : rookSqOk 53 = true := by decide

/-- Collision-freeness of the supplied rook magic constant on square 54. -/
theorem rookSqOk_54 : rookSqOk 54 = true := by decide

/-- Collision-freeness of the supplied rook magic constant on square 55. -/
theorem rookSqOk_55 : rookSqOk 55 = true := by decide

/-- Collision-freeness of the supplied rook magic constant on square 56. -/
theorem rookSqOk_56 : rookSqOk 56 = true := by decide

/-- Collision-freeness of the supplied rook magic constant on square 57. -/
theorem rookSqOk_57 : rookSqOk 57 = true := by decide

/-- Collision-freeness of the supplied rook magic constant on square 58. -/
theorem rookSqOk_58 : rookSqOk 58 = true := by decide

/-- Collision-freeness of the supplied rook magic constant on square 59. -/
theorem rookSqOk_59 : rookSqOk 59 = true := by decide

/-- Collision-freeness of the supplied rook magic constant on square 60. -/
theorem rookSqOk_60 : rookSqOk 60 = true := by decide

/-- Collision-freeness of the supplied rook magic constant on square 61. -/
theorem rookSqOk_61 : rookSqOk 61 = true := by decide

/-- Collision-freeness of the supplied rook magic constant on square 62. -/
theorem rookSqOk_62 : rookSqOk 62 = true := by decide

/-- Collision-freeness of the supplied rook magic constant on square 63. -/
theorem rookSqOk_63 : rookSqOk 63 = true := by decide

/-- Agreement of the squares-between table row of square 0 with the spec-side bitboards. -/
theorem betweenRowOk_0 : betweenRowOk 0 = true := by decide

/-- Agreement of the squares-between table row of square 1 with the spec-side bitboards. -/
theorem betweenRowOk_1 : betweenRowOk 1 = true := by decide

/-- Agreement of the squares-between table row of square 2 with the spec-side bitboards. -/
theorem betweenRowOk_2 : betweenRowOk 2 = true := by decide

/-- Agreement of the squares-between table row of square 3 with the spec-side bitboards. -/
theorem betweenRowOk_3 : betweenRowOk 3 = true := by decide

/-- Agreement of the squares-between table row of square 4 with the spec-side bitboards. -/
theorem betweenRowOk_4 : betweenRowOk 4 = true := by decide

/-- Agreement of the squares-between table row of square 5 with the spec-side bitboards. -/
theorem betweenRowOk_5 : betweenRowOk 5 = true := by decide

/-- Agreement of the squares-between table row of square 6 with the spec-side bitboards. -/
theorem betweenRowOk_6 : betweenRowOk 6 = true := by decide

/-- Agreement of the squares-between table row of square 7 with the spec-side bitboards. -/
theorem betweenRowOk_7 : betweenRowOk 7 = true := by decide

/-- Agreement of the squares-between table row of square 8 with the spec-side bitboards. -/
theorem betweenRowOk_8 : betweenRowOk 8 = true := by decide

/-- Agreement of the squares-between table row of square 9 with the spec-side bitboards. -/
theorem betweenRowOk_9 : betweenRowOk 9 = true := by decide

/-- Agreement of the squares-between table row of square 10 with the spec-side bitboards. -/
theorem betweenRowOk_10 : betweenRowOk 10 = true := by decide

/-- Agreement of the squares-between table row of square 11 with the spec-side bitboards. -/
theorem betweenRowOk_11 : betweenRowOk 11 = true := by decide

/-- Agreement of the squares-between table row of square 12 with the spec-side bitboards. -/
theorem betweenRowOk_12 : betweenRowOk 12 = true := by decide

/-- Agreement of the squares-between table row of square 13 with the spec-side bitboards. -/
theorem betweenRowOk_13 : betweenRowOk 13 = true := by decide

/-- Agreement of the squares-between table row of square 14 with the spec-side bitboards. -/
theorem betweenRowOk_14 : betweenRowOk 14 = true := by decide

/-- Agreement of the squares-between table row of square 15 with the spec-side bitboards. -/
theorem betweenRowOk_15 : betweenRowOk 15 = true := by decide

/-- Agreement of the squares-between table row of square 16 with the spec-side bitboards. -/
theorem betweenRowOk_16 : betweenRowOk 16 = true := by decide

/-- Agreement of the squares-between table row of square 17 with the spec-side bitboards. -/
theorem betweenRowOk_17 : betweenRowOk 17 = true := by decide

/-- Agreement of the squares-between table row of square 18 with the spec-side bitboards. -/
theorem betweenRowOk_18 : betweenRowOk 18 = true := by decide

/-- Agreement of the squares-between table row of square 19 with the spec-side bitboards. -/
theorem betweenRowOk_19 : betweenRowOk 19 = true := by decide

/-- Agreement of the squares-between table row of square 20 with the spec-side bitboards. -/
theorem betweenRowOk_20 : betweenRowOk 20 = true := by decide

/-- Agreement of the squares-between table row of square 21 with the spec-side bitboards. -/
theorem betweenRowOk_21 : betweenRowOk 21 = true := by decide

/-- Agreement of the squares-between table row of square 22 with the spec-side bitboards. -/
theorem betweenRowOk_22 : betweenRowOk 22 = true := by decide

/-- Agreement of the squares-between table row of square 23 with the spec-side bitboards. -/
theorem betweenRowOk_23 : betweenRowOk 23 = true := by decide

/-- Agreement of the squares-between table row of square 24 with the spec-side bitboards. -/
theorem betweenRowOk_24 : betweenRowOk 24 = true := by decide

/-- Agreement of the squares-between table row of square 25 with the spec-side bitboards. -/
theorem betweenRowOk_25 : betweenRowOk 25 = true := by decide

/-- Agreement of the squares-between table row of square 26 with the spec-side bitboards. -/
theorem betweenRowOk_26 : betweenRowOk 26 = true := by decide

/-- Agreement of the squares-between table row of square 27 with the spec-side bitboards. -/
theorem betweenRowOk_27 : betweenRowOk 27 = true := by decide

/-- Agreement of the squares-between table row of square 28 with the spec-side bitboards. -/
theorem betweenRowOk_28 : betweenRowOk 28 = true := by decide

/-- Agreement of the squares-between table row of square 29 with the spec-side bitboards. -/
theorem betweenRowOk_29 : betweenRowOk 29 = true := by decide

/-- Agreement of the squares-between table row of square 30 with the spec-side bitboards. -/
theorem betweenRowOk_30 : betweenRowOk 30 = true := by decide

/-- Agreement of the squares-between table row of square 31 with the spec-side bitboards. -/
theorem betweenRowOk_31 : betweenRowOk 31 = true := by decide

/-- Agreement of the squares-between table row of square 32 with the spec-side bitboards. -/
theorem betweenRowOk_32 : betweenRowOk 32 = true := by decide

/-- Agreement of the squares-between table row of square 33 with the spec-side bitboards. -/
theorem betweenRowOk_33 : betweenRowOk 33 = true := by decide

/-- Agreement of the squares-between table row of square 34 with the spec-side bitboards. -/
theorem betweenRowOk_34 : betweenRowOk 34 = true := by decide

/-- Agreement of the squares-between table row of square 35 with the spec-side bitboards. -/
theorem betweenRowOk_35 : betweenRowOk 35 = true := by decide

/-- Agreement of the squares-between table row of square 36 with the spec-side bitboards. -/
theorem betweenRowOk_36 : betweenRowOk 36 = true := by decide

/-- Agreement of the squares-between table row of square 37 with the spec-side bitboards. -/
theorem betweenRowOk_37 : betweenRowOk 37 = true := by decide

/-- Agreement of the squares-between table row of square 38 with the spec-side bitboards. -/
theorem betweenRowOk_38 : betweenRowOk 38 = true := by decide

/-- Agreement of the squares-between table row of square 39 with the spec-side bitboards. -/
theorem betweenRowOk_39 : betweenRowOk 39 = true := by decide

/-- Agreement of the squares-between table row of square 40 with the spec-side bitboards. -/
theorem betweenRowOk_40 : betweenRowOk 40 = true := by decide

/-- Agreement of the squares-between table row of square 41 with the spec-side bitboards. -/
theorem betweenRowOk_41 : betweenRowOk 41 = true := by decide

/-- Agreement of the squares-between table row of square 42 with the spec-side bitboards. -/
theorem betweenRowOk_42 : betweenRowOk 42 = true := by decide

/-- Agreement of the squares-between table row of square 43 with the spec-side bitboards. -/
theorem betweenRowOk_43 : betweenRowOk 43 = true := by decide

/-- Agreement of the squares-between table row of square 44 with the spec-side bitboards. -/
theorem betweenRowOk_44 : betweenRowOk 44 = true := by decide

/-- Agreement of the squares-between table row of square 45 with the spec-side bitboards. -/
theorem betweenRowOk_45 : betweenRowOk 45 = true := by decide

/-- Agreement of the squares-between table row of square 46 with the spec-side bitboards. -/
theorem betweenRowOk_46 : betweenRowOk 46 = true := by decide

/-- Agreement of the squares-between table row of square 47 with the spec-side bitboards. -/
theorem betweenRowOk_47 : betweenRowOk 47 = true := by decide

/-- Agreement of the squares-between table row of square 48 with the spec-side bitboards. -/
theorem betweenRowOk_48 : betweenRowOk 48 = true := by decide

/-- Agreement of the squares-between table row of square 49 with the spec-side bitboards. -/
theorem betweenRowOk_49 : betweenRowOk 49 = true := by decide

/-- Agreement of the squares-between table row of square 50 with the spec-side bitboards. -/
theorem betweenRowOk_50 : betweenRowOk 50 = true := by decide

/-- Agreement of the squares-between table row of square 51 with the spec-side bitboards. -/
theorem betweenRowOk_51 : betweenRowOk 51 = true := by decide

/-- Agreement of the squares-between table row of square 52 with the spec-side bitboards. -/
theorem betweenRowOk_52 : betweenRowOk 52 = true := by decide

/-- Agreement of the squares-between table row of square 53 with the spec-side bitboards. -/
theorem betweenRowOk_53 : betweenRowOk 53 = true := by decide

/-- Agreement of the squares-between table row of square 54 with the spec-side bitboards. -/
theorem betweenRowOk_54 : betweenRowOk 54 = true := by decide

/-- Agreement of the squares-between table row of square 55 with the spec-side bitboards. -/
theorem betweenRowOk_55 : betweenRowOk 55 = true := by decide

/-- Agreement of the squares-between table row of square 56 with the spec-side bitboards. -/
theorem betweenRowOk_56 : betweenRowOk 56 = true := by decide

/-- Agreement of the squares-between table row of square 57 with the spec-side bitboards. -/
theorem betweenRowOk_57 : betweenRowOk 57 = true := by decide

/-- Agreement of the squares-between table row of square 58 with the spec-side bitboards. -/
theorem betweenRowOk_58 : betweenRowOk 58 = true := by decide

/-- Agreement of the squares-between table row of square 59 with the spec-side bitboards. -/
theorem betweenRowOk_59 : betweenRowOk 59 = true := by decide

/-- Agreement of the squares-between table row of square 60 with the spec-side bitboards. -/
theorem betweenRowOk_60 : betweenRowOk 60 = true := by decide

/-- Agreement of the squares-between table row of square 61 with the spec-side bitboards. -/
theorem betweenRowOk_61 : betweenRowOk 61 = true := by decide

/-- Agreement of the squares-between table row of square 62 with the spec-side bitboards. -/
theorem betweenRowOk_62 : betweenRowOk 62 = true := by decide

/-- Agreement of the squares-between table row of square 63 with the spec-side bitboards. -/
theorem betweenRowOk_63 : betweenRowOk 63 = true := by decide

end ExhaustiveChecks

/-- The exhaustive certificate, assembled from the 64 per-square checks. -/
theorem bishopMagicOk_eq : bishopMagicOk = true := by
  unfold bishopMagicOk
  rw [range64_eq]
  simp only [List.all_cons, List.all_nil, Bool.true_and,
    bishopSqOk_0, bishopSqOk_1, bishopSqOk_2, bishopSqOk_3, bishopSqOk_4,
    bishopSqOk_5, bishopSqOk_6, bishopSqOk_7, bishopSqOk_8, bishopSqOk_9,
    bishopSqOk_10, bishopSqOk_11, bishopSqOk_12, bishopSqOk_13,
    bishopSqOk_14, bishopSqOk_15, bishopSqOk_16, bishopSqOk_17,
    bishopSqOk_18, bishopSqOk_19, bishopSqOk_20, bishopSqOk_21,
    bishopSqOk_22, bishopSqOk_23, bishopSqOk_24, bishopSqOk_25,
    bishopSqOk_26, bishopSqOk_27, bishopSqOk_28, bishopSqOk_29,
    bishopSqOk_30, bishopSqOk_31, bishopSqOk_32, bishopSqOk_33,
    bishopSqOk_34, bishopSqOk_35, bishopSqOk_36, bishopSqOk_37,
    bishopSqOk_38, bishopSqOk_39, bishopSqOk_40, bishopSqOk_41,
    bishopSqOk_42, bishopSqOk_43, bishopSqOk_44, bishopSqOk_45,
    bishopSqOk_46, bishopSqOk_47, bishopSqOk_48, bishopSqOk_49,
    bishopSqOk_50, bishopSqOk_51, bishopSqOk_52, bishopSqOk_53,
    bishopSqOk_54, bishopSqOk_55, bishopSqOk_56, bishopSqOk_57,
    bishopSqOk_58, bishopSqOk_59, bishopSqOk_60, bishopSqOk_61,
    bishopSqOk_62, bishopSqOk_63
    ]

/-- The exhaustive certificate, assembled from the 64 per-square checks. -/
theorem rookMagicOk_eq : rookMagicOk = true := by
  unfold rookMagicOk
  rw [range64_eq]
  simp only [List.all_cons, List.all_nil, Bool.true_and,
    rookSqOk_0, rookSqOk_1, rookSqOk_2, rookSqOk_3, rookSqOk_4, rookSqOk_5,
    rookSqOk_6, rookSqOk_7, rookSqOk_8, rookSqOk_9, rookSqOk_10, rookSqOk_11,
    rookSqOk_12, rookSqOk_13, rookSqOk_14, rookSqOk_15, rookSqOk_16,
    rookSqOk_17, rookSqOk_18, rookSqOk_19, rookSqOk_20, rookSqOk_21,
    rookSqOk_22, rookSqOk_23, rookSqOk_24, rookSqOk_25, rookSqOk_26,
    rookSqOk_27, rookSqOk_28, rookSqOk_29, rookSqOk_30, rookSqOk_31,
    rookSqOk_32, rookSqOk_33, rookSqOk_34, rookSqOk_35, rookSqOk_36,
    rookSqOk_37, rookSqOk_38, rookSqOk_39, rookSqOk_40, rookSqOk_41,
    rookSqOk_42, rookSqOk_43, rookSqOk_44, rookSqOk_45, rookSqOk_46,
    rookSqOk_47, rookSqOk_48, rookSqOk_49, rookSqOk_50, rookSqOk_51,
    rookSqOk_52, rookSqOk_53, rookSqOk_54, rookSqOk_55, rookSqOk_56,
    rookSqOk_57, rookSqOk_58, rookSqOk_59, rookSqOk_60, rookSqOk_61,
    rookSqOk_62, rookSqOk_63
    ]

/-- The exhaustive certificate, assembled from the 64 per-square checks. -/
theorem betweenPairsOk_eq : betweenPairsOk = true := by
  unfold betweenPairsOk
  rw [range64_eq]
  simp only [List.all_cons, List.all_nil, Bool.true_and,
    betweenRowOk_0, betweenRowOk_1, betweenRowOk_2, betweenRowOk_3,
    betweenRowOk_4, betweenRowOk_5, betweenRowOk_6, betweenRowOk_7,
    betweenRowOk_8, betweenRowOk_9, betweenRowOk_10, betweenRowOk_11,
    betweenRowOk_12, betweenRowOk_13, betweenRowOk_14, betweenRowOk_15,
    betweenRowOk_16, betweenRowOk_17, betweenRowOk_18, betweenRowOk_19,
    betweenRowOk_20, betweenRowOk_21, betweenRowOk_22, betweenRowOk_23,
    betweenRowOk_24, betweenRowOk_25, betweenRowOk_26, betweenRowOk_27,
    betweenRowOk_28, betweenRowOk_29, betweenRowOk_30, betweenRowOk_31,
    betweenRowOk_32, betweenRowOk_33, betweenRowOk_34, betweenRowOk_35,
    betweenRowOk_36, betweenRowOk_37, betweenRowOk_38, betweenRowOk_39,
    betweenRowOk_40, betweenRowOk_41, betweenRowOk_42, betweenRowOk_43,
    betweenRowOk_44, betweenRowOk_45, betweenRowOk_46, betweenRowOk_47,
    betweenRowOk_48, betweenRowOk_49, betweenRowOk_50, betweenRowOk_51,
    betweenRowOk_52, betweenRowOk_53, betweenRowOk_54, betweenRowOk_55,
    betweenRowOk_56, betweenRowOk_57, betweenRowOk_58, betweenRowOk_59,
    betweenRowOk_60, betweenRowOk_61, betweenRowOk_62, betweenRowOk_63
    ]

/-- C1: after `InitAttackTables`, for every square and every occupancy that is
a subset of the square's relevant-occupancy mask, the slider attack table
entry stored at the magic-hashed index equals the brute-force ray-cast attack
set, for both the bishop and the rook tables. -/
theorem C1_slider_tables_correct (sq occ : Nat) (hsq : sq < 64) :
    (occ &&& MaskBishopAttacks sq = occ →
      bishop_attacks sq (bishopMagicIndex sq occ) = BishopAttacksOnTheFly sq occ) ∧
    (occ &&& MaskRookAttacks sq = occ →
      rook_attacks sq (rookMagicIndex sq occ) = RookAttacksOnTheFly sq occ) :=
  ⟨fun h => bishop_attacks_correct (bishopCert_of_ok bishopMagicOk_eq hsq) h,
   fun h => rook_attacks_correct (rookCert_of_ok rookMagicOk_eq hsq) h⟩

/-- C1 witness at square 0 and the empty occupancy. -/
theorem C1_slider_tables_correct_witness :
    (0 : Nat) < 64 ∧
    ((0 &&& MaskBishopAttacks 0 = 0 →
      bishop_attacks 0 (bishopMagicIndex 0 0) = BishopAttacksOnTheFly 0 0) ∧
    (0 &&& MaskRookAttacks 0 = 0 →
      rook_attacks 0 (rookMagicIndex 0 0) = RookAttacksOnTheFly 0 0)) :=
  ⟨by decide, C1_slider_tables_correct 0 0 (by decide)⟩

/-- C2: for every square, the magic-index function of `InitAttackTables` maps
distinct occupancy subsets of that square's relevant mask to distinct table
indices, for both the bishop and the rook constants. -/
theorem C2_magic_index_injective (sq occ1 occ2 : Nat) (hsq : sq < 64) :
    (occ1 &&& MaskBishopAttacks sq = occ1 → occ2 &&& MaskBishopAttacks sq = occ2 →
      bishopMagicIndex sq occ1 = bishopMagicIndex sq occ2 → occ1 = occ2) ∧
    (occ1 &&& MaskRookAttacks sq = occ1 → occ2 &&& MaskRookAttacks sq = occ2 →
      rookMagicIndex sq occ1 = rookMagicIndex sq occ2 → occ1 = occ2) := by
  constructor
  · intro h1 h2 heq
    obtain ⟨s, hs⟩ := bishopCert_of_ok bishopMagicOk_eq hsq
    have e1 : SetOccupancy (extIndex occ1 (MaskBishopAttacks sq)) (MaskBishopAttacks sq) =
        occ1 := by rw [SetOccupancy_extIndex, h1]
    have e2 : SetOccupancy (extIndex occ2 (MaskBishopAttacks sq)) (MaskBishopAttacks sq) =
        occ2 := by rw [SetOccupancy_extIndex, h2]
    have hstep := scanMagic_inj (bishop_magic_numbers.getD sq 0) (64 - bishop_relevant_bits)
      64 (MaskBishopAttacks sq) 0 s hs (extIndex occ1 (MaskBishopAttacks sq))
      (extIndex occ2 (MaskBishopAttacks sq))
      (by rw [Nat.zero_add, Nat.zero_add, e1, e2]; exact heq)
    rw [← e1, ← e2, hstep]
  · intro h1 h2 heq
    obtain ⟨s, hs⟩ := rookCert_of_ok rookMagicOk_eq hsq
    have e1 : SetOccupancy (extIndex occ1 (MaskRookAttacks sq)) (MaskRookAttacks sq) =
        occ1 := by rw [SetOccupancy_extIndex, h1]
    have e2 : SetOccupancy (extIndex occ2 (MaskRookAttacks sq)) (MaskRookAttacks sq) =
        occ2 := by rw [SetOccupancy_extIndex, h2]
    have hstep := scanMagic_inj (rook_magic_numbers.getD sq 0) (64 - rook_relevant_bits)
      64 (MaskRookAttacks sq) 0 s hs (extIndex occ1 (MaskRookAttacks sq))
      (extIndex occ2 (MaskRookAttacks sq))
      (by rw [Nat.zero_add, Nat.zero_add, e1, e2]; exact heq)
    rw [← e1, ← e2, hstep]

/-- C2 witness at square 0 and equal empty occupancies. -/
theorem C2_magic_index_injective_witness :
    (0 : Nat) < 64 ∧
    ((0 &&& MaskBishopAttacks 0 = 0 → 0 &&& MaskBishopAttacks 0 = 0 →
      bishopMagicIndex 0 0 = bishopMagicIndex 0 0 → (0 : Nat) = 0) ∧
    (0 &&& MaskRookAttacks 0 = 0 → 0 &&& MaskRookAttacks 0 = 0 →
      rookMagicIndex 0 0 = rookMagicIndex 0 0 → (0 : Nat) = 0)) :=
  ⟨by decide, C2_magic_index_injective 0 0 0 (by decide)⟩

/-- C3 counterexample: the claim says the entry is empty when the two squares
coincide, but `initializeLookupTables` computes `SQUARES_BETWEEN_BB[0][0]` as
the intersection of a rook attack set with itself, the full empty-board rook
attack set of a1, which is not zero. -/
theorem C3_counterexample : SQUARES_BETWEEN_BB 0 0 ≠ 0 := by
  rw [SQUARES_BETWEEN_eq_OTF rookMagicOk_eq bishopMagicOk_eq (by decide) (by decide)]
  decide

/-- C3 (amended): for every pair of distinct squares, the
`SQUARES_BETWEEN_BB` entry equals the bitboard of squares strictly between
them when they share a rank, file or (anti)diagonal and is zero otherwise; on
the diagonal of the table (sq1 = sq2) the entry is instead the empty-board
slider attack set of the square. -/
theorem C3_squares_between (sq1 sq2 : Nat) (h1 : sq1 < 64) (h2 : sq2 < 64)
    (hne : sq1 ≠ sq2) :
    SQUARES_BETWEEN_BB sq1 sq2 = betweenSpecBB sq1 sq2 := by
  rw [SQUARES_BETWEEN_eq_OTF rookMagicOk_eq bishopMagicOk_eq h1 h2,
    ← betweenSpecFast_eq h1 h2]
  have h3 := List.all_eq_true.mp betweenPairsOk_eq sq1 (List.mem_range.mpr h1)
  unfold betweenRowOk at h3
  have h4 := List.all_eq_true.mp h3 sq2 (List.mem_range.mpr h2)
  simp only at h4
  rw [beq_eq_false_iff_ne.mpr hne, Bool.false_or] at h4
  exact beq_iff_eq.mp h4

/-- C3 witness at the distinct squares a1 and b1. -/
theorem C3_squares_between_witness :
    (0 : Nat) < 64 ∧ (1 : Nat) < 64 ∧ (0 : Nat) ≠ 1 ∧
    SQUARES_BETWEEN_BB 0 1 = betweenSpecBB 0 1 :=
  ⟨by decide, by decide, by decide, C3_squares_between 0 1 (by decide) (by decide) (by decide)⟩
